import Mathlib

/-!
Shallow embedding of the contract-management Flask application
(`src/app/routes/contract.py`, `src/app/routes/auth.py`,
`src/app/models/contract.py`, `src/app/models/user.py`).

Conventions:
* Python `float` values (fees, tax rates, percentages) are modelled exactly
  over `ℚ`.
* Strings are Lean `String`s; Python `str.strip()` and the regular
  expressions used by the routes are implemented character by character on
  `List Char`, following each regex's semantics (`re.match` anchors at the
  start only; `re.search` scans for the leftmost match).
* Stateful ORM code is modelled by explicit state passing: the `contracts`
  table is a `List ContractRow`, the `user` table a `List UserRow`, and a
  route handler is a function from the table(s) and the request data to a
  result carrying the flashed message and the new table contents.
-/

/-- Python `str.strip()` whitespace (the ASCII whitespace characters). -/
def wsChar (c : Char) : Bool :=
  c = ' ' || c = '\t' || c = '\n' || c = '\r' || c = '\x0b' || c = '\x0c'

/-- Python `str.strip()`: drop whitespace from both ends. -/
def pyStrip (s : String) : String :=
  String.mk ((((s.data.dropWhile wsChar).reverse).dropWhile wsChar).reverse)

/-- Numeric value of a list of decimal digit characters. -/
def natOfDigits (cs : List Char) : Nat :=
  cs.foldl (fun n c => n * 10 + (c.toNat - '0'.toNat)) 0

/-- `startsWithCh h n`: the list `h` begins with the list `n`. -/
def startsWithCh : List Char → List Char → Bool
  | _, [] => true
  | [], _ :: _ => false
  | a :: as, b :: bs => a = b && startsWithCh as bs

/-- `containsSub h n`: the list `n` occurs contiguously inside `h`. -/
def containsSub : List Char → List Char → Bool
  | [], n => n.isEmpty
  | c :: t, n => startsWithCh (c :: t) n || containsSub t n

/-- SQL `ILIKE '%q%'`: case-insensitive substring containment
(wildcards inside `q` are not interpreted; the routes only embed the raw
search string between two `%`). -/
def ilike (field q : String) : Bool :=
  containsSub (field.data.map Char.toLower) (q.data.map Char.toLower)

/-- Python `s.lower()` (ASCII case folding). -/
def pyLower (s : String) : String := String.mk (s.data.map Char.toLower)

/-- Character class `[a-zA-Z\s\.]` of the Party-A/Party-B name regex. -/
def nameClassChar (c : Char) : Bool := c.isAlpha || wsChar c || c = '.'

/-- Character class `[a-zA-Z\s]` of the position regex. -/
def positionClassChar (c : Char) : Bool := c.isAlpha || wsChar c

/-- Character class `[A-Z0-9\-]` of the VAT-TIN regex. -/
def taxCodeClassChar (c : Char) : Bool := ('A' ≤ c && c ≤ 'Z') || c.isDigit || c = '-'

/-- `re.match(r'^[a-zA-Z\s\.]+$', s)`: nonempty, all characters letters,
whitespace or periods. -/
def nameRegexOk (s : String) : Bool := !s.data.isEmpty && s.data.all nameClassChar

/-- `re.match(r'^[a-zA-Z\s]+$', s)`. -/
def positionRegexOk (s : String) : Bool := !s.data.isEmpty && s.data.all positionClassChar

/-- `re.match(r'^[A-Z0-9\-]+$', s)`. -/
def taxCodeRegexOk (s : String) : Bool := !s.data.isEmpty && s.data.all taxCodeClassChar

/-- All suffixes obtained by consuming between 1 and `max` leading decimal
digits (used to enumerate the matches of `\d{1,4}` in the phone regex). -/
def digitTakes (cs : List Char) (max : Nat) : List (List Char) :=
  match max, cs with
  | 0, _ => []
  | _ + 1, [] => []
  | m + 1, c :: rest => if c.isDigit then rest :: digitTakes rest m else []

/-- Separator class `[-.\s]` of the phone regex. -/
def phoneSepChar (c : Char) : Bool := c = '-' || c = '.' || wsChar c

/-- Suffixes reachable by one `[-.\s]?\d{1,4}` group of the phone regex. -/
def phoneGroupTakes (cs : List Char) : List (List Char) :=
  digitTakes cs 4 ++
    (match cs with
     | c :: rest => if phoneSepChar c then digitTakes rest 4 else []
     | [] => [])

/-- `re.match(r'^\+?\d{1,4}([-.\s]?\d{1,4}){2,3}$', s)` (a full match: the
route's strings are fully consumed because the regex ends in `$`). -/
def phoneRegexOk (s : String) : Bool :=
  let cs := match s.data with
    | '+' :: rest => rest
    | other => other
  (digitTakes cs 4).any fun r1 =>
    (phoneGroupTakes r1).any fun r2 =>
      (phoneGroupTakes r2).any fun r3 =>
        r3.isEmpty || (phoneGroupTakes r3).any List.isEmpty

/-- Character class `[a-zA-Z0-9._%+-]` (local part of the email regex). -/
def emailLocalChar (c : Char) : Bool :=
  c.isAlpha || c.isDigit || c = '.' || c = '_' || c = '%' || c = '+' || c = '-'

/-- Character class `[a-zA-Z0-9.-]` (domain part of the email regex). -/
def emailDomainChar (c : Char) : Bool := c.isAlpha || c.isDigit || c = '.' || c = '-'

/-- All decompositions `pre ++ sep :: suf = cs` at an occurrence of `sep`. -/
def splitsAt (sep : Char) : List Char → List (List Char × List Char)
  | [] => []
  | c :: rest =>
    (if c = sep then [(([] : List Char), rest)] else []) ++
      (splitsAt sep rest).map (fun p => (c :: p.1, p.2))

/-- `re.match(r'^[a-zA-Z0-9._%+-]+@[a-zA-Z0-9.-]+\.[a-zA-Z]{2,}$', s)`,
expressed by enumerating the split at `@` and the split at the `.` that the
backtracking engine would choose. -/
def emailRegexOk (s : String) : Bool :=
  (splitsAt '@' s.data).any fun at_ =>
    !at_.1.isEmpty && at_.1.all emailLocalChar &&
      (splitsAt '.' at_.2).any fun dot =>
        !dot.1.isEmpty && dot.1.all emailDomainChar &&
          2 ≤ dot.2.length && dot.2.all Char.isAlpha

/-- `re.match(r"NGOF/\d{4}-\d{3}", s)` as used by the create/update routes:
an unanchored-at-the-end prefix match. -/
def contractNumberRegexOk (s : String) : Bool :=
  match s.data with
  | 'N' :: 'G' :: 'O' :: 'F' :: '/' :: rest =>
    let y := rest.take 4
    let r := rest.drop 4
    y.length = 4 && y.all Char.isDigit &&
      (match r with
       | '-' :: r2 => (r2.take 3).length = 3 && (r2.take 3).all Char.isDigit
       | _ => false)
  | _ => false

/-- The leftmost match of `re.search(r'\((\d+\.?\d*)\%\)', text)` starting at
the head of `cs`, returning the numeric value of group 1 (`float` of the
matched digits, exact over `ℚ`). -/
def percentAt (cs : List Char) : Option ℚ :=
  match cs with
  | '(' :: rest =>
    let d1 := rest.takeWhile Char.isDigit
    let r1 := rest.dropWhile Char.isDigit
    if d1.isEmpty then none
    else
      match r1 with
      | '.' :: r2 =>
        let d2 := r2.takeWhile Char.isDigit
        let r3 := r2.dropWhile Char.isDigit
        (match r3 with
         | '%' :: ')' :: _ =>
           some ((natOfDigits d1 : ℚ) + (natOfDigits d2 : ℚ) / ((10 : ℚ) ^ d2.length))
         | _ => none)
      | '%' :: ')' :: _ => some ((natOfDigits d1 : ℚ))
      | _ => none
  | _ => none

/-- Scan for the leftmost match position of `re.search(r'\((\d+\.?\d*)\%\)', ·)`. -/
def searchPercentAux : List Char → Option ℚ
  | [] => none
  | c :: rest =>
    match percentAt (c :: rest) with
    | some q => some q
    | none => searchPercentAux rest

/-- `re.search(r'\((\d+\.?\d*)\%\)', s)`, returning the percentage of group 1
when the pattern occurs in `s`. -/
def searchPercent (s : String) : Option ℚ := searchPercentAux s.data

/-- Python `str.split(sep)` for a single-character separator. -/
def splitOnChar (sep : Char) : List Char → List (List Char)
  | [] => [[]]
  | c :: rest =>
    match splitOnChar sep rest with
    | [] => [[c]]
    | g :: gs => if c = sep then [] :: g :: gs else (c :: g) :: gs

/-- Python `str.split('\n\n')`: split at non-overlapping double newlines,
scanning left to right. -/
def splitParasAux : List Char → List Char → List (List Char)
  | [], cur => [cur.reverse]
  | '\n' :: '\n' :: rest, cur => cur.reverse :: splitParasAux rest []
  | c :: rest, cur => splitParasAux rest (c :: cur)

/-- The list of `'\n\n'`-separated paragraphs of a text. -/
def splitParas (s : String) : List String :=
  (splitParasAux s.data []).map String.mk

/-- Leap-year rule used by `datetime`. -/
def isLeap (y : Nat) : Bool := y % 4 = 0 && (y % 100 ≠ 0 || y % 400 = 0)

/-- Number of days of month `m` of year `y` (as validated by `datetime`). -/
def daysInMonth (y m : Nat) : Nat :=
  if m = 2 then (if isLeap y then 29 else 28)
  else if m = 4 || m = 6 || m = 9 || m = 11 then 30
  else 31

/-- `datetime.strptime(s, '%Y-%m-%d')`: `%Y` takes exactly four digits, `%m`
and `%d` one or two, the whole string must be consumed, and `datetime`
validates the calendar (month 1–12, day within the month's length, year ≥ 1).
Returns `(year, month, day)`. -/
def parseDate (s : String) : Option (Nat × Nat × Nat) :=
  match splitOnChar '-' s.data with
  | [yc, mc, dc] =>
    if yc.length = 4 && yc.all Char.isDigit &&
        1 ≤ mc.length && mc.length ≤ 2 && mc.all Char.isDigit &&
        1 ≤ dc.length && dc.length ≤ 2 && dc.all Char.isDigit then
      let y := natOfDigits yc
      let m := natOfDigits mc
      let d := natOfDigits dc
      if 1 ≤ y && 1 ≤ m && m ≤ 12 && 1 ≤ d && d ≤ daysInMonth y m then
        some (y, m, d)
      else none
    else none
  | _ => none

/-- `datetime` comparison restricted to dates: lexicographic on (y, m, d). -/
def dateLt (a b : Nat × Nat × Nat) : Bool :=
  a.1 < b.1 || (a.1 = b.1 && (a.2.1 < b.2.1 || (a.2.1 = b.2.1 && a.2.2 < b.2.2)))

/-- Round to the nearest integer, ties to even (Python's `round`, and the
rounding used by `'%.2f' %` formatting). -/
def roundHalfEvenZ (q : ℚ) : ℤ :=
  let f := ⌊q⌋
  let r := q - (f : ℚ)
  if r < 1 / 2 then f else if 1 / 2 < r then f + 1 else if f % 2 = 0 then f else f + 1

/-- Python `f'{x:.2f}'` over the exact rational value of `x`. -/
def formatQ2 (q : ℚ) : String :=
  let n : ℤ := roundHalfEvenZ (q * 100)
  let sign := if n < 0 then "-" else ""
  let m := n.natAbs
  let r := m % 100
  sign ++ toString (m / 100) ++ "." ++ (if r < 10 then "0" else "") ++ toString r

/-- Decimal expansion of `num/den` (`num < den`), at most `fuel` digits. -/
def fracDigits (num den : Nat) : Nat → List Char
  | 0 => []
  | fuel + 1 =>
    if num = 0 then []
    else Char.ofNat (num * 10 / den + 48) :: fracDigits (num * 10 % den) den fuel

/-- Python `f'{x}'` for a float `x`, over the exact rational value: an integer
part, a point, and the fractional digits (`'15.0'` for `15.0`).  Exact for
the terminating decimals produced by the routes' form values. -/
def pyFloatRepr (q : ℚ) : String :=
  let sign := if q < 0 then "-" else ""
  let n := q.num.natAbs
  let d := q.den
  let frac := if n % d = 0 then ['0'] else fracDigits (n % d) d 17
  sign ++ toString (n / d) ++ "." ++ String.mk frac

/-- Zero-pad to (at least) three digits: Python `f'{n:03d}'` for `n ≥ 0`. -/
def pad3 (n : Nat) : String :=
  let s := toString n
  (if s.length < 3 then String.mk (List.replicate (3 - s.length) '0') else "") ++ s

/-- `re.match(r"NGOF/(\d{4})-(\d{3})", s)` (a prefix match): the four-digit
year group as a string and the value of the three-digit number group. -/
def ngofMatch (s : String) : Option (String × Nat) :=
  match s.data with
  | 'N' :: 'G' :: 'O' :: 'F' :: '/' :: rest =>
    let y := rest.take 4
    let r := rest.drop 4
    if y.length = 4 && y.all Char.isDigit then
      match r with
      | '-' :: r2 =>
        let n := r2.take 3
        if n.length = 3 && n.all Char.isDigit then some (String.mk y, natOfDigits n)
        else none
      | _ => none
    else none
  | _ => none

/-- `generate_next_contract_number` (src/app/routes/contract.py, lines 36–52).
`last` is the `contract_number` of the most recent non-deleted contract, or
`none` when there is none. -/
def generate_next_contract_number (last : Option String) (current_year : Nat) : String :=
  let base := "NGOF/" ++ toString current_year ++ "-001"
  match last with
  | none => base
  | some s =>
    if s = "" then base
    else
      match ngofMatch s with
      | none => base
      | some (year, number) =>
        if year = toString current_year then "NGOF/" ++ year ++ "-" ++ pad3 (number + 1)
        else base

/-- `sanitize_filename` (lines 33–34): replace every character that is not a
word character, whitespace, `.` or `-` by a space, then strip.  (`\w` is
modelled over ASCII.) -/
def sanitize_filename (name : String) : String :=
  pyStrip (String.mk (name.data.map fun c =>
    if c.isAlpha || c.isDigit || c = '_' || wsChar c || c = '.' || c = '-' then c else ' '))

/-- `calculate_installment_payments` (lines 105–113): gross, tax and net
amount of one installment.  The `except` branch of the source is unreachable
for numeric inputs (the body is pure arithmetic), so the function is total
here. -/
def calculate_installment_payments (total_fee_usd tax_percentage percentage : ℚ) :
    ℚ × ℚ × ℚ :=
  let gross_amount := total_fee_usd * percentage / 100
  let tax_amount := gross_amount * (tax_percentage / 100)
  let net_amount := gross_amount - tax_amount
  (gross_amount, tax_amount, net_amount)

/-- A payment installment as collected by the routes. -/
structure Installment where
  description : String
  deliverables : String
  dueDate : String
  deriving DecidableEq, Repr

/-- `calculate_payments` (lines 115–132): fold over the installments, adding
the gross and net contribution of each installment whose description contains
a `(p%)` pattern and skipping the others. -/
def calculate_payments (total_fee_usd tax_percentage : ℚ)
    (payment_installments : List Installment) : ℚ × ℚ :=
  payment_installments.foldl
    (fun acc installment =>
      match searchPercent installment.description with
      | none => acc
      | some percentage =>
        (acc.1 + total_fee_usd * percentage / 100,
         acc.2 + total_fee_usd * percentage / 100 * (1 - tax_percentage / 100)))
    (0, 0)

/-- English month name (`date.strftime('%B')`). -/
def monthName (m : Nat) : String :=
  match m with
  | 1 => "January" | 2 => "February" | 3 => "March" | 4 => "April"
  | 5 => "May" | 6 => "June" | 7 => "July" | 8 => "August"
  | 9 => "September" | 10 => "October" | 11 => "November" | 12 => "December"
  | _ => ""

/-- `format_date` (lines 54–82): ISO date to `1ˢᵗ January 2025` style, with
the source's early returns (empty/`n/a` → `''`, strings containing `week`
returned unchanged, unparsable strings returned unchanged). -/
def format_date (iso_date : String) : String :=
  if iso_date = "" || pyLower iso_date = "n/a" then ""
  else if containsSub (pyLower iso_date).data "week".data then iso_date
  else
    match parseDate iso_date with
    | none => iso_date
    | some (y, m, d) =>
      let suffix :=
        if 11 ≤ d % 100 && d % 100 ≤ 13 then "ᵗʰ"
        else if d % 10 = 1 then "ˢᵗ"
        else if d % 10 = 2 then "ⁿᵈ"
        else if d % 10 = 3 then "ʳᵈ"
        else "ᵗʰ"
      toString d ++ suffix ++ " " ++ monthName m ++ " " ++ toString y

/-- `number_to_words` (lines 84–96).  The third-party `num2words(n,
lang='en').title()` conversion is abstracted as the argument `numWords`. -/
def number_to_words (numWords : Nat → String) (num : ℚ) : String :=
  if num = 0 || num < 0 then "Zero US Dollars only"
  else
    let integer_part : Nat := (⌊num⌋).toNat
    let decimal_part : Nat := (roundHalfEvenZ ((num - (integer_part : ℚ)) * 100)).toNat
    let words := numWords integer_part
    let words := if 0 < decimal_part then words ++ " and " ++ numWords decimal_part ++ " Cents" else words
    words ++ " US Dollars only"

/-- A Party-A representative (`party_a_info` entries). -/
structure PartyA where
  name : String
  position : String
  address : String
  deriving DecidableEq, Repr

/-- A focal person (`focal_person_info` entries). -/
structure FocalPerson where
  name : String
  position : String
  phone : String
  email : String
  deriving DecidableEq, Repr

/-- A row of the `contracts` table.

The columns follow `src/app/models/contract.py` (class `Contract`,
lines 6–46), with dates kept as the strings the routes store and JSON
columns as structured lists.  Modelled from the spec: the create and update
routes (`src/app/routes/contract.py`, lines 547–580 and 1713–1742, ORM
writes per the spec's "form parsing, validation, ORM reads/writes") also
store `party_a_info`, `deduct_tax_code` and `vat_organization_name` on
`Contract`; the model revision declaring those three columns is not in the
snapshot (the declaration present omits them, and its `to_dict` does not
emit them), so they are included here as the routes use them, while
`to_dict`-mediated reads below continue to omit them exactly as the `to_dict`
in the snapshot does. -/
structure ContractRow where
  id : String
  user_id : Nat
  project_title : String
  contract_number : String
  organization_name : String
  party_a_name : String
  party_a_position : String
  party_a_address : String
  party_b_full_name_with_title : String
  party_b_address : String
  party_b_phone : String
  party_b_email : String
  registration_number : String
  registration_date : String
  agreement_start_date : String
  agreement_end_date : String
  total_fee_usd : ℚ
  gross_amount_usd : ℚ
  tax_percentage : ℚ
  payment_gross : String
  payment_net : String
  workshop_description : String
  focal_person_info : List FocalPerson
  party_a_signature_name : String
  party_b_signature_name : String
  party_b_position : String
  total_fee_words : String
  title : String
  deliverables : String
  output_description : String
  custom_article_sentences : List (String × String)
  payment_installments : List Installment
  created_at : Nat
  deleted_at : Option Nat
  party_a_info : List PartyA
  deduct_tax_code : Option String
  vat_organization_name : Option String
  deriving DecidableEq, Repr

/-- The logged-in user as the contract routes see it.  Modelled from the
spec: `current_user.has_role('admin')` (the `Role` model is not in the
snapshot; per the spec the application "manages users, roles, departments")
is modelled as the boolean `isAdmin`. -/
structure UserCtx where
  id : Nat
  username : String
  isAdmin : Bool
  deriving DecidableEq, Repr

/-- The POST data of the contract create route (`request.form`), with the
repeated `name[]` inputs as lists.  `total_fee_usd` and `tax_percentage`
carry the values produced by the route's `float(...)` conversions, exactly
over `ℚ`. -/
structure CreateForm where
  party_b_select : String
  party_b_signature_name_raw : String
  party_a_signer_raw : String
  deduct_tax_code_raw : String
  vat_organization_name_raw : String
  project_title_raw : String
  contract_number_raw : String
  output_description_raw : String
  tax_percentage : ℚ
  organization_name_raw : String
  party_b_position_raw : String
  party_b_phone_raw : String
  party_b_email_raw : String
  party_b_address_raw : String
  agreement_start_date_raw : String
  agreement_end_date_raw : String
  total_fee_usd : ℚ
  total_fee_words_raw : String
  workshop_description_raw : String
  title_raw : String
  party_b_signature_name_confirm_raw : String
  party_a_names : List String
  party_a_positions : List String
  party_a_addresses : List String
  article_numbers : List String
  article_sentences : List String
  inst_descriptions : List String
  inst_deliverables : List String
  inst_due_dates : List String
  focal_names : List String
  focal_positions : List String
  focal_phones : List String
  focal_emails : List String
  deriving DecidableEq, Repr

/-- `party_b_select = request.form.get('party_b_select', '').strip()`. -/
def CreateForm.partyBSelect (f : CreateForm) : String := pyStrip f.party_b_select

/-- `party_b_name = ....strip() if party_b_select == 'new' else party_b_select`. -/
def CreateForm.partyBName (f : CreateForm) : String :=
  if f.partyBSelect = "new" then pyStrip f.party_b_signature_name_raw else f.partyBSelect

/-- `party_a_signer = request.form.get('party_a_signer', '').strip()`. -/
def CreateForm.partyASigner (f : CreateForm) : String := pyStrip f.party_a_signer_raw

/-- `deduct_tax_code = request.form.get('deduct_tax_code', '').strip()`. -/
def CreateForm.deductTaxCode (f : CreateForm) : String := pyStrip f.deduct_tax_code_raw

/-- `vat_organization_name = request.form.get('vat_organization_name', '').strip()`. -/
def CreateForm.vatOrganizationName (f : CreateForm) : String := pyStrip f.vat_organization_name_raw

/-- The stripped scalar `form_data` entries (create route, lines 280–303). -/
def CreateForm.projectTitle (f : CreateForm) : String := pyStrip f.project_title_raw

def CreateForm.contractNumber (f : CreateForm) : String := pyStrip f.contract_number_raw

def CreateForm.outputDescription (f : CreateForm) : String := pyStrip f.output_description_raw

def CreateForm.organizationName (f : CreateForm) : String := pyStrip f.organization_name_raw

def CreateForm.partyBPosition (f : CreateForm) : String := pyStrip f.party_b_position_raw

def CreateForm.partyBPhone (f : CreateForm) : String := pyStrip f.party_b_phone_raw

def CreateForm.partyBEmail (f : CreateForm) : String := pyStrip f.party_b_email_raw

def CreateForm.partyBAddress (f : CreateForm) : String := pyStrip f.party_b_address_raw

def CreateForm.startDate (f : CreateForm) : String := pyStrip f.agreement_start_date_raw

def CreateForm.endDate (f : CreateForm) : String := pyStrip f.agreement_end_date_raw

def CreateForm.totalFeeWords (f : CreateForm) : String := pyStrip f.total_fee_words_raw

def CreateForm.workshopDescription (f : CreateForm) : String := pyStrip f.workshop_description_raw

def CreateForm.titleField (f : CreateForm) : String := pyStrip f.title_raw

def CreateForm.partyBNameConfirm (f : CreateForm) : String :=
  pyStrip f.party_b_signature_name_confirm_raw

/-- `party_a_info` list comprehension (lines 306–318): zip the three input
lists, keep only entries whose three components are nonempty after
stripping. -/
def CreateForm.partyAInfo (f : CreateForm) : List PartyA :=
  ((f.party_a_names.zip (f.party_a_positions.zip f.party_a_addresses)).filterMap
    fun t =>
      let name := pyStrip t.1
      let pos := pyStrip t.2.1
      let addr := pyStrip t.2.2
      if name ≠ "" && pos ≠ "" && addr ≠ "" then some ⟨name, pos, addr⟩ else none)

/-- `articles_raw` (lines 379–383): custom article number/sentence pairs with
a nonempty sentence. -/
def CreateForm.articlesRaw (f : CreateForm) : List (String × String) :=
  (f.article_numbers.zip f.article_sentences).filterMap fun t =>
    if pyStrip t.2 ≠ "" then some (pyStrip t.1, pyStrip t.2) else none

/-- Python `dict` build-up: insertion order of the first occurrence of each
key, value of the last occurrence. -/
def dictInsert (kvs : List (String × String)) (k v : String) : List (String × String) :=
  if kvs.any (fun p => p.1 = k) then kvs.map (fun p => if p.1 = k then (k, v) else p)
  else kvs ++ [(k, v)]

/-- `custom_article_sentences = {str(num): sentence for ...}` (line 385),
as an association list with Python-dict semantics. -/
def CreateForm.customArticleSentences (f : CreateForm) : List (String × String) :=
  (f.articlesRaw).foldl (fun d kv => dictInsert d kv.1 kv.2) []

/-- `payment_installments_raw` (lines 388–400). -/
def CreateForm.paymentInstallments (f : CreateForm) : List Installment :=
  ((f.inst_descriptions.zip (f.inst_deliverables.zip f.inst_due_dates)).filterMap
    fun t =>
      let desc := pyStrip t.1
      let deliv := pyStrip t.2.1
      let due := pyStrip t.2.2
      if desc ≠ "" && deliv ≠ "" && due ≠ "" then some ⟨desc, deliv, due⟩ else none)

/-- `focal_person_raw` (lines 412–426). -/
def CreateForm.focalPersons (f : CreateForm) : List FocalPerson :=
  ((f.focal_names.zip (f.focal_positions.zip (f.focal_phones.zip f.focal_emails))).filterMap
    fun t =>
      let name := pyStrip t.1
      let pos := pyStrip t.2.1
      let phone := pyStrip t.2.2.1
      let email := pyStrip t.2.2.2
      if name ≠ "" && pos ≠ "" && phone ≠ "" && email ≠ "" then
        some ⟨name, pos, phone, email⟩
      else none)

/-- `deliverables = '; '.join(...)` (line 408). -/
def CreateForm.deliverablesJoined (f : CreateForm) : String :=
  String.intercalate "; " ((f.paymentInstallments).map Installment.deliverables)

/-- First-error chaining of two validation results (the source returns at the
first failing check). -/
def vchain (a b : Option String) : Option String :=
  match a with
  | some m => some m
  | none => b

/-- Check 1 (lines 319–325): at least one Party A representative. -/
def vPartyA (f : CreateForm) : Option String :=
  if f.partyAInfo.isEmpty then some "At least one Party A representative is required."
  else none

/-- Check 2 (lines 329–335): the Party A signer must be one of the listed
representatives. -/
def vSigner (f : CreateForm) : Option String :=
  if f.partyASigner = "" || !(f.partyAInfo.map PartyA.name).contains f.partyASigner then
    some "Please select a valid Party A signer from the list."
  else none

/-- Check 3 (lines 337–343): Party B signature name. -/
def vPartyBName (f : CreateForm) : Option String :=
  if f.partyBName = "" || !nameRegexOk f.partyBName then
    some "Party B signature name is required and must contain only letters, spaces, and periods."
  else none

/-- Check 4 (lines 345–376): VAT TIN and organization name when the tax
percentage is 0. -/
def vVat (f : CreateForm) : Option String :=
  if f.tax_percentage = 0 then
    if f.deductTaxCode = "" then some "VAT TIN is required when tax percentage is 0%."
    else if !taxCodeRegexOk f.deductTaxCode then
      some "VAT TIN must contain only uppercase letters, numbers, and hyphens."
    else if 50 < f.deductTaxCode.length then some "VAT TIN must not exceed 50 characters."
    else if f.vatOrganizationName = "" then
      some "Name of Organization is required when tax percentage is 0%."
    else if 255 < f.vatOrganizationName.length then
      some "Name of Organization must not exceed 255 characters."
    else none
  else none

/-- Check 5 (lines 401–405): at least one payment installment. -/
def vInstNonempty (f : CreateForm) : Option String :=
  if f.paymentInstallments.isEmpty then some "At least one payment installment is required."
  else none

/-- Check 6 (lines 427–430): at least one focal person. -/
def vFocalNonempty (f : CreateForm) : Option String :=
  if f.focalPersons.isEmpty then some "At least one focal person is required."
  else none

/-- Check 7 (lines 443–457): required fields, in source order; the check is
Python truthiness, so a `total_fee_usd` of `0.0` fails it. -/
def vRequired (f : CreateForm) : Option String :=
  if f.projectTitle = "" then some "Project title is required."
  else if f.contractNumber = "" then some "Contract number is required."
  else if f.outputDescription = "" then some "Output description is required."
  else if f.organizationName = "" then some "Organization name is required."
  else if f.partyBName = "" then some "Party B signature name is required."
  else if f.startDate = "" then some "Agreement start date is required."
  else if f.endDate = "" then some "Agreement end date is required."
  else if f.total_fee_usd = 0 then some "Total fee USD is required."
  else none

/-- Check 8 (lines 459–462): Party B confirmation must match. -/
def vConfirm (f : CreateForm) : Option String :=
  if f.partyBName ≠ f.partyBNameConfirm then
    some "Party B signature name confirmation does not match."
  else none

/-- Check 9 (lines 464–467): contract number format. -/
def vFormat (f : CreateForm) : Option String :=
  if !contractNumberRegexOk f.contractNumber then
    some "Contract number must follow the format NGOF/YYYY-NNN (e.g., NGOF/2025-005)."
  else none

/-- Check 10 (lines 469–472): no non-deleted contract with the same number. -/
def vDup (db : List ContractRow) (f : CreateForm) : Option String :=
  if db.any (fun c => c.contract_number = f.contractNumber && c.deleted_at = none) then
    some "Contract number already exists."
  else none

/-- Check 11 (lines 474–484): the date range.  The source parses the end date
first; either parse failure raises the same `ValueError`. -/
def vDates (f : CreateForm) : Option String :=
  if f.startDate ≠ "" && f.endDate ≠ "" then
    match parseDate f.endDate, parseDate f.startDate with
    | some de, some ds =>
      if dateLt de ds then some "Agreement end date must be after start date." else none
    | _, _ => some "Invalid date format for agreement start or end date."
  else none

/-- Check 12 (lines 486–489): non-negative total fee. -/
def vFee (f : CreateForm) : Option String :=
  if f.total_fee_usd < 0 then some "Total fee USD cannot be negative." else none

/-- Check 13 (lines 491–494): tax percentage whitelist. -/
def vTax (f : CreateForm) : Option String :=
  if f.tax_percentage = 0 || f.tax_percentage = 5 || f.tax_percentage = 10 ||
      f.tax_percentage = 15 || f.tax_percentage = 20 then none
  else some "Tax percentage must be one of 0, 5, 10, 15, or 20."

/-- The per-installment loop of check 14 (lines 497–513): each description
must contain a `(p%)` pattern and each due date must parse; the percentages
are summed.  (The `float(...)` conversion of group 1 cannot raise: the group
is made of digits.) -/
def checkInstallmentsLoop : List Installment → ℚ → Except String ℚ
  | [], acc => .ok acc
  | i :: rest, acc =>
    match searchPercent i.description with
    | none =>
      .error ("Invalid installment description format: " ++ i.description ++
        ". Must include percentage like (50%).")
    | some percentage =>
      match parseDate i.dueDate with
      | none => .error ("Invalid due date for installment: " ++ i.dueDate ++ ".")
      | some _ => checkInstallmentsLoop rest (acc + percentage)

/-- Check 14 (lines 496–517): installment loop, then the 0.01-tolerance test
on the total percentage. -/
def vInstallments (f : CreateForm) : Option String :=
  match checkInstallmentsLoop f.paymentInstallments 0 with
  | .error m => some m
  | .ok total_percentage =>
    if 1 / 100 < |total_percentage - 100| then
      some "Total percentage of payment installments must equal 100%."
    else none

/-- Check 15 (lines 519–532): focal person fields, in source order. -/
def checkFocalLoop : List FocalPerson → Option String
  | [] => none
  | p :: rest =>
    if !nameRegexOk p.name then
      some ("Invalid focal person name: " ++ p.name ++
        ". Only letters, spaces, and periods are allowed.")
    else if !positionRegexOk p.position then
      some ("Invalid focal person position: " ++ p.position ++
        ". Only letters and spaces are allowed.")
    else if !phoneRegexOk p.phone then
      some ("Invalid focal person phone: " ++ p.phone ++
        ". Use format like 012 845 091, +855 12 845 091, or +85512845091.")
    else if !emailRegexOk p.email then
      some ("Invalid focal person email: " ++ p.email ++ ".")
    else checkFocalLoop rest

def vFocalValid (f : CreateForm) : Option String := checkFocalLoop f.focalPersons

/-- Check 16 (lines 534–544): Party A entries, in source order. -/
def checkPartyALoop : List PartyA → Option String
  | [] => none
  | p :: rest =>
    if !nameRegexOk p.name then
      some ("Invalid Party A name: " ++ p.name ++
        ". Only letters, spaces, and periods are allowed.")
    else if !positionRegexOk p.position then
      some ("Invalid Party A position: " ++ p.position ++
        ". Only letters and spaces are allowed.")
    else if p.address = "" then some "Party A address is required."
    else checkPartyALoop rest

def vPartyAValid (f : CreateForm) : Option String := checkPartyALoop f.partyAInfo

/-- The full validation chain of the create route's POST branch, returning
the first flashed error message, in source order (lines 319–544). -/
def validateCreate (db : List ContractRow) (f : CreateForm) : Option String :=
  vchain (vPartyA f) (vchain (vSigner f) (vchain (vPartyBName f) (vchain (vVat f)
    (vchain (vInstNonempty f) (vchain (vFocalNonempty f) (vchain (vRequired f)
      (vchain (vConfirm f) (vchain (vFormat f) (vchain (vDup db f) (vchain (vDates f)
        (vchain (vFee f) (vchain (vTax f) (vchain (vInstallments f)
          (vchain (vFocalValid f) (vPartyAValid f)))))))))))))))

/-- The `Contract(...)` constructor call of the create route (lines 546–580).
`u` is the logged-in user, `newId` the generated UUID string, `now` the
commit time, and `numWords` the abstracted `num2words` conversion. -/
def mkContract (u : UserCtx) (newId : String) (now : Nat) (numWords : Nat → String)
    (f : CreateForm) : ContractRow :=
  let insts := f.paymentInstallments
  let payments := calculate_payments f.total_fee_usd f.tax_percentage insts
  { id := newId
    user_id := u.id
    project_title := f.projectTitle
    contract_number := f.contractNumber
    organization_name := f.organizationName
    party_a_name := ""
    party_a_position := ""
    party_a_address := ""
    party_b_full_name_with_title := f.partyBName
    party_b_address := f.partyBAddress
    party_b_phone := f.partyBPhone
    party_b_email := f.partyBEmail
    registration_number := "#304 សជណ"
    registration_date := "07 March 2012"
    agreement_start_date := f.startDate
    agreement_end_date := f.endDate
    total_fee_usd := f.total_fee_usd
    gross_amount_usd := f.total_fee_usd
    tax_percentage := f.tax_percentage
    payment_gross := "$" ++ formatQ2 payments.1 ++ " USD"
    payment_net := "$" ++ formatQ2 payments.2 ++ " USD"
    workshop_description := f.workshopDescription
    focal_person_info := f.focalPersons
    party_a_signature_name := f.partyASigner
    party_b_signature_name := f.partyBName
    party_b_position := f.partyBPosition
    total_fee_words :=
      if f.totalFeeWords = "" then number_to_words numWords f.total_fee_usd
      else f.totalFeeWords
    title := f.titleField
    deliverables := f.deliverablesJoined
    output_description := f.outputDescription
    custom_article_sentences := f.customArticleSentences
    payment_installments := insts
    created_at := now
    deleted_at := none
    party_a_info := f.partyAInfo
    deduct_tax_code := if f.tax_percentage = 0 then some f.deductTaxCode else none
    vat_organization_name := if f.tax_percentage = 0 then some f.vatOrganizationName else none }

/-- Outcome of a POST to the create route: either the form is re-rendered
with a flashed error and the table unchanged, or the new contract is
committed and the user redirected with a success flash. -/
inductive CreateResult where
  | render (message : String) (db : List ContractRow)
  | redirect (message : String) (db : List ContractRow)
  deriving DecidableEq, Repr

/-- The table state carried by a create-route outcome. -/
def CreateResult.db : CreateResult → List ContractRow
  | .render _ db => db
  | .redirect _ db => db

/-- The flashed message of a create-route outcome. -/
def CreateResult.message : CreateResult → String
  | .render m _ => m
  | .redirect m _ => m

/-- POST branch of the create route (lines 271–604): run the validations in
source order; on the first failure re-render with the flashed message and no
write; otherwise commit the new `Contract` row and redirect with
`'Contract created successfully!'`.  (The notification rows added for admins
after the contract commit live in a different table and are not modelled.) -/
def createPost (db : List ContractRow) (u : UserCtx) (newId : String) (now : Nat)
    (numWords : Nat → String) (f : CreateForm) : CreateResult :=
  match validateCreate db f with
  | some message => .render message db
  | none => .redirect "Contract created successfully!" (db ++ [mkContract u newId now numWords f])

/-- A run of a DOCX paragraph: its text and whether it is bold (font size,
underline and colour are not modelled). -/
structure DocRun where
  text : String
  bold : Bool
  deriving DecidableEq, Repr

/-- A row of the Article-4 payment-schedule table, mirroring the dicts of
`standard_articles[3]['table']`: the installment description, the list of
amount lines of the `Total Amount (USD)` cell, the joined deliverables and
the displayed due date. -/
structure SRow where
  installment : String
  amounts : List String
  deliverable : String
  dueDate : String
  deriving DecidableEq, Repr

/-- A block-level element of the generated DOCX body. -/
inductive DocBlock where
  | para (runs : List DocRun)
  | table (rows : List SRow)
  deriving DecidableEq, Repr

/-- `add_paragraph(text, ...)` (lines 745–768): the text is split on
`'\n\n'` into paragraphs.  The source further splits each paragraph into
runs around the quoted `“Party A”`/`“Party B”` tokens and the given bold
segments and email addresses, which only toggles bold/colour on sub-runs
whose concatenation is the paragraph text; each paragraph is kept here as a
single run carrying that text and the call's `bold` flag. -/
def addPara (text : String) (bold : Bool) : List DocBlock :=
  (splitParas text).map (fun t => .para [⟨t, bold⟩])

/-- `add_heading(number, title, ...)` (lines 828–849): one paragraph of three
bold runs `ARTICLE <number>`, `": "` and the title. -/
def addHeading (number : Nat) (title : String) : DocBlock :=
  .para [⟨"ARTICLE " ++ toString number, true⟩, ⟨": ", true⟩, ⟨title, true⟩]

/-- A financial line of Article 3 (lines 1172–1192): lines with a colon are
split at the first colon into a bold label run, a tab run and a bold value
run; other lines become one bold run. -/
def finLinePara (line : String) : DocBlock :=
  match splitOnChar ':' line.data with
  | [] => .para [⟨line, true⟩]
  | [_] => .para [⟨line, true⟩]
  | label :: rest =>
    .para [⟨String.mk label ++ ":", true⟩, ⟨"\t", false⟩,
      ⟨pyStrip (String.intercalate ":" (rest.map String.mk)), true⟩]

/-- `contract.to_dict()` has no `party_a_info` key (the snapshot's `to_dict`,
model lines 51–92, does not emit it), so `contract_data.get('party_a_info',
default)` in `export_docx` (line 1110) always yields the default
representative. -/
def exportPartyAInfo (_c : ContractRow) : List PartyA :=
  [⟨"Mr. SOEUNG Saroeun", "Executive Director",
    "#9-11, Street 476, Sangkat Tuol Tumpoung I, Phnom Penh, Cambodia"⟩]

/-- `contract_data.get('deduct_tax_code', '')` (line 658): `to_dict` emits no
such key, so the export always sees `''`. -/
def exportDeductTaxCode (_c : ContractRow) : String := ""

/-- `contract_data.get('vat_organization_name', '')` (line 659): always `''`
for the same reason. -/
def exportVatOrganizationName (_c : ContractRow) : String := ""

/-- `to_dict`'s `registration_number or '#304 សជណ'`. -/
def exportRegNumber (c : ContractRow) : String :=
  if c.registration_number = "" then "#304 សជណ" else c.registration_number

/-- `to_dict`'s `registration_date or '07 March 2012'`. -/
def exportRegDate (c : ContractRow) : String :=
  if c.registration_date = "" then "07 March 2012" else c.registration_date

/-- `to_dict`'s `party_a_signature_name or 'Mr. SOEUNG Saroeun'`. -/
def exportPartyASigName (c : ContractRow) : String :=
  if c.party_a_signature_name = "" then "Mr. SOEUNG Saroeun" else c.party_a_signature_name

/-- `agreement_start_date_display` (line 651). -/
def exportStartDisp (c : ContractRow) : String := format_date c.agreement_start_date

/-- `agreement_end_date_display` (line 652). -/
def exportEndDisp (c : ContractRow) : String := format_date c.agreement_end_date

/-- `calculate_payments(total_fee_usd, tax_percentage, payment_installments)`
as called at lines 670–672. -/
def exportGrossNet (c : ContractRow) : ℚ × ℚ :=
  calculate_payments c.total_fee_usd c.tax_percentage c.payment_installments

/-- `contract_data['total_gross'] = f"USD{total_gross_amount:.2f}"`. -/
def exportTotalGrossStr (c : ContractRow) : String := "USD" ++ formatQ2 (exportGrossNet c).1

/-- `contract_data['total_net'] = f"USD{total_net_amount:.2f}"`. -/
def exportTotalNetStr (c : ContractRow) : String := "USD" ++ formatQ2 (exportGrossNet c).2

/-- `contract_data.get('total_fee_words') or number_to_words(total_fee_usd)`
(line 667). -/
def exportFeeWords (c : ContractRow) (numWords : Nat → String) : String :=
  if c.total_fee_words = "" then number_to_words numWords c.total_fee_usd
  else c.total_fee_words

/-- One data row of the Article-4 table (lines 676–684 and 917–929): the
percentage extracted from the description (`0.0` when absent), the
gross/tax/net triple from `calculate_installment_payments`, the deliverables
re-joined with `'\n- '`, and the formatted due date. -/
def scheduleRowOf (total_fee_usd tax_percentage : ℚ) (i : Installment) : SRow :=
  let percentage := (searchPercent i.description).getD 0
  let amounts := calculate_installment_payments total_fee_usd tax_percentage percentage
  { installment := i.description
    amounts :=
      ["- Gross: $" ++ formatQ2 amounts.1,
       if 0 < tax_percentage then
         "- Tax " ++ pyFloatRepr tax_percentage ++ "%: $" ++ formatQ2 amounts.2.1
       else "",
       "- Net pay: $" ++ formatQ2 amounts.2.2]
    deliverable :=
      String.intercalate "\n- "
        ((((splitOnChar ';' i.deliverables.data).map String.mk).map pyStrip).filter
          (fun d => d ≠ ""))
    dueDate := format_date i.dueDate }

/-- The header dict of `standard_articles[3]['table']` (line 916). -/
def scheduleHeaderRow : SRow :=
  { installment := "Installment"
    amounts := ["Total Amount (USD)"]
    deliverable := "Deliverable"
    dueDate := "Due date" }

/-- The full Article-4 table (line 915–930): header row then one row per
payment installment. -/
def scheduleTable (c : ContractRow) : List SRow :=
  scheduleHeaderRow ::
    c.payment_installments.map (scheduleRowOf c.total_fee_usd c.tax_percentage)

/-- One entry of the `standard_articles` list (lines 852–1084); the extra
Article-3 fields default to empty for the other articles. -/
structure StdArticle where
  number : Nat
  title : String
  content : String
  table : Option (List SRow) := none
  financial_lines : List String := []
  remaining_content : String := ""
  deriving DecidableEq, Repr

/-- `standard_articles` (lines 852–1084), with the contract's values
interpolated exactly as the source f-strings do. -/
def standardArticles (c : ContractRow) (numWords : Nat → String) : List StdArticle :=
  let tax := c.tax_percentage
  let focalJoin :=
    String.intercalate " and "
      (c.focal_person_info.map fun person =>
        person.name ++ ", " ++ person.position ++ " (Telephone " ++ person.phone ++
          " Email: " ++ person.email ++ ")")
  [{ number := 1
     title := "TERMS OF REFERENCE"
     content :=
       "“Party B” shall perform tasks as stated in the attached TOR (annex-1) to “Party A”, " ++
       "and deliver each milestone as stipulated in article 4.\n\n" ++
       "The work shall be of good quality and well performed with the acceptance by “Party A”." },
   { number := 2
     title := "TERM OF AGREEMENT"
     content :=
       "The agreement is effective from " ++ exportStartDisp c ++ " – " ++ exportEndDisp c ++
       ". This Agreement is terminated automatically after the due date of the Agreement Term " ++
       "unless otherwise, both Parties agree to extend the Term with a written agreement." },
   { number := 3
     title := "PROFESSIONAL FEE"
     content :=
       "The professional fee is the total amount of " ++ exportTotalGrossStr c ++ " (" ++
       exportFeeWords c numWords ++ " " ++ ") " ++
       (if tax = 0 then "excluding" else "including") ++
       " tax for the whole assignment period."
     financial_lines :=
       [if tax = 0 && exportVatOrganizationName c ≠ "" && exportDeductTaxCode c ≠ "" then
          exportVatOrganizationName c
        else "",
        if tax = 0 && exportDeductTaxCode c ≠ "" then "VAT TIN: " ++ exportDeductTaxCode c
        else "",
        "Total Service Fee: " ++ exportTotalGrossStr c,
        if 0 < tax then
          "Withholding Tax " ++ pyFloatRepr tax ++ "%: USD" ++
            formatQ2 ((exportGrossNet c).1 * (tax / 100))
        else "",
        "Net amount: " ++ exportTotalNetStr c]
     remaining_content :=
       "“Party B” is responsible to issue the Invoice (net amount) and receipt (when receiving " ++
       "the payment) with the total amount as stipulated in each instalment as in the Article 4 " ++
       "after having done the agreed deliverable tasks, for payment request. The payment will " ++
       "be processed after the satisfaction from “Party A” as of the required deliverable tasks " ++
       "as stated in Article 4.\n\n" ++
       "“Party B” is responsible for all related taxes payable to the government department." },
   { number := 4
     title := "TERM OF PAYMENT"
     content := "The payment will be made based on the following schedules:"
     table := some (scheduleTable c) },
   { number := 5
     title := "NO OTHER PERSONS"
     content :=
       "No person or entity, which is not a party to this agreement, has any rights to " ++
       "enforce, take any action, or claim it is owed any benefit under this agreement." },
   { number := 6
     title := "MONITORING and COORDINATION"
     content :=
       "“Party A” shall monitor and evaluate the progress of the agreement toward its " ++
       "objective, including the activities implemented. " ++
       (if focalJoin = "" then "N/A, N/A (Telephone N/A Email: N/A)" else focalJoin) ++
       " is the focal contact person of “Party A” and " ++
       c.party_b_signature_name ++ ", " ++ c.party_b_position ++
       " (HP. " ++ c.party_b_phone ++ ", E-mail: " ++ c.party_b_email ++ ") " ++
       "the focal contact person of the “Party B”. The focal contact person of “Party A” and " ++
       "“Party B” will work together for overall coordination including reviewing and meeting " ++
       "discussions during the assignment process." },
   { number := 7
     title := "CONFIDENTIALITY"
     content :=
       "All outputs produced, with the exception of the “" ++ c.project_title ++ "”, " ++
       "which is a contribution from, and to be claimed as a public document by the main " ++
       "author and co-author in associated, and/or under this agreement, shall be the property " ++
       "of “Party A”. The “Party B” agrees to not disclose any confidential information, of " ++
       "which he/she may take cognizance in the performance under this contract, except with " ++
       "the prior written approval of “Party A”." },
   { number := 8
     title := "ANTI-CORRUPTION and CONFLICT OF INTEREST"
     content :=
       "“Party B” shall not participate in any practice that is or could be construed as an " ++
       "illegal or corrupt practice in Cambodia.\n\nThe “Party A” is committed to fighting all " ++
       "types of corruption and expects this same commitment from the consultant. It reserves " ++
       "the rights and believes based on the declaration of “Party B” that it is an " ++
       "independent social enterprise firm operating in Cambodia and it does not involve any " ++
       "conflict of interest with other parties that may be affected to the “Party A”." },
   { number := 9
     title := "OBLIGATION TO COMPLY WITH THE NGOF’S POLICIES AND CODE OF CONDUCT"
     content :=
       "By signing this agreement, “Party B” is obligated to comply with and respect all " ++
       "existing policies and code of conduct of “Party A”, such as Gender Mainstreaming, " ++
       "Child Protection, Disability policy, Environmental Mainstreaming, etc. and the " ++
       "“Party B” declared themselves that s/he will perform the assignment in the neutral " ++
       "position, professional manner, and not be involved in any political affiliation." },
   { number := 10
     title := "ANTI-TERRORISM FINANCING AND FINANCIAL CRIME"
     content :=
       "NGOF is determined that all its funds and resources should only be used to further " ++
       "its mission and shall not be subject to illicit use by any third party nor used or " ++
       "abused for any illicit purpose. In order to achieve this objective, NGOF will not " ++
       "knowingly or recklessly provide funds, economic goods, or material support to any " ++
       "entity or individual designated as a “terrorist” by the international community or " ++
       "affiliate domestic governments and will take all reasonable steps to safeguard and " ++
       "protect its assets from such illicit use and to comply with host government laws.\n\n" ++
       "NGOF respects its contracts with its donors and puts procedures in place for " ++
       "compliance with these contracts.\n\n" ++
       "“Illicit use” refers to terrorist financing, sanctions, money laundering, and export " ++
       "control regulations." },
   { number := 11
     title := "INSURANCE"
     content :=
       "“Party B” is responsible for any health and life insurance of its team members. " ++
       "“Party A” will not be held responsible for any medical expenses or compensation " ++
       "incurred during or after this contract." },
   { number := 12
     title := "ASSIGNMENT"
     content :=
       "“Party B” shall have the right to assign individuals within its organization to " ++
       "carry out the tasks herein named in the attached Technical Proposal.\n\nThe “Party B” " ++
       "shall not assign, or transfer any of its rights or obligations under this agreement " ++
       "without the prior written consent of “Party A”. Any attempt by “Party B” to assign or " ++
       "transfer any of its rights and obligations without the prior written consent of " ++
       "“Party A” shall render this agreement subject to immediate termination by “Party A”." },
   { number := 13
     title := "RESOLUTION OF CONFLICTS/DISPUTES"
     content :=
       "Conflicts between any of these agreements shall be resolved by the following " ++
       "methods:\n\nIn the case of a disagreement arising between “Party A” and the “Party B” " ++
       "regarding the implementation of any part of, or any other substantive question " ++
       "arising under or relating to this agreement, the parties shall use their best efforts " ++
       "to arrive at an agreeable resolution by mutual consultation.\n\nUnresolved issues may, " ++
       "upon the option of either party and written notice to the other party, be referred to " ++
       "for arbitration. Failure by the “Party B” or “Party A” to dispute a decision arising " ++
       "from such arbitration in writing within thirty (30) calendar days of receipt of a " ++
       "final decision shall result in such final decision being deemed binding upon either " ++
       "the “Party B” and/or “Party A”. All expenses related to arbitration will be shared " ++
       "equally between both parties." },
   { number := 14
     title := "TERMINATION"
     content :=
       "The “Party A” or the “Party B” may, by notice in writing, terminate this agreement " ++
       "under the following conditions:\n\n1. “Party A” may terminate this agreement at any " ++
       "time with a one-week notice if “Party B” fails to comply with the terms and " ++
       "conditions of this agreement.\n\n2. For gross professional misconduct (as defined in " ++
       "the NGOF Human Resource Policy), “Party A” may terminate this agreement immediately " ++
       "without prior notice. “Party A” will notify “Party B” in a letter that will indicate " ++
       "the reason for termination as well as the effective date of termination.\n\n3. " ++
       "“Party B” may terminate this agreement at any time with a one-week notice if " ++
       "“Party A” fails to comply with the terms and conditions of this agreement. “Party B” " ++
       "will notify “Party A” in a letter that will indicate the reason for termination as " ++
       "well as the effective date of termination. If “Party B” terminates this agreement " ++
       "without any appropriate reason or fails to implement the assignment, “Party B” must " ++
       "refund the full amount of fees received to “Party A”.\n\n4. If for any reason either " ++
       "“Party A” or “Party B” decides to terminate this agreement, “Party B” shall be paid " ++
       "pro-rata for the work already completed by “Party A”. This payment will require the " ++
       "submission of a timesheet that demonstrates work completed as well as the handing " ++
       "over of any deliverables completed or partially completed. In case “Party B” has " ++
       "received payment for services under the agreement which have not yet been performed, " ++
       "the appropriate portion of these fees must be refunded by “Party B” to “Party A”." },
   { number := 15
     title := "MODIFICATION OR AMENDMENT"
     content :=
       "No modification or amendment of this agreement shall be valid unless in writing and " ++
       "signed by an authorized person of “Party A” and “Party B”." },
   { number := 16
     title := "CONTROLLING OF LAW"
     content :=
       "This agreement shall be governed and construed following the law of the Kingdom of " ++
       "Cambodia. This Agreement is prepared in two original copies." }]

/-- `custom_articles` (lines 1087–1090): the items of the stored
`custom_article_sentences` dict. -/
def customArticles (c : ContractRow) : List (String × String) := c.custom_article_sentences

/-- One iteration of the article loop (lines 1159–1275): the heading, the
article's paragraphs (with the Article-3 financial lines and the Article-4
table handled as in the source), and then every custom sentence stored under
the article's number, rendered through `add_paragraph` (line 1275) and hence
split on `'\n\n'` into one or more paragraphs, like every other text. -/
def renderArticle (c : ContractRow) (a : StdArticle) : List DocBlock :=
  addHeading a.number a.title ::
    ((if a.number = 3 then
        addPara a.content false ++
          ((a.financial_lines.filter (fun line => line ≠ "")).map finLinePara) ++
          addPara a.remaining_content false
      else addPara a.content false) ++
     (match a.table with
      | some rows => [DocBlock.table rows]
      | none => []) ++
     ((customArticles c).flatMap fun custom =>
        if custom.1 = toString a.number then addPara custom.2 false
        else []))

/-- The article section of the document: the loop of lines 1159–1275. -/
def articleSection (c : ContractRow) (numWords : Nat → String) : List DocBlock :=
  (standardArticles c numWords).flatMap (renderArticle c)

/-- The header of the document (lines 1092–1156): title lines, the two party
blocks and the whereas clauses. -/
def headerBlocks (c : ContractRow) : List DocBlock :=
  let party_a_info := exportPartyAInfo c
  let representative_text :=
    ", represented by " ++
      String.intercalate "; " (party_a_info.map fun p => p.name ++ ", " ++ p.position) ++ "."
  let party_a_text :=
    "The NGO Forum on Cambodia" ++ representative_text ++ "\nAddress: " ++
      (match party_a_info with
       | p :: _ => p.address
       | [] => "#9-11, Street 476, Sangkat Tuol Tumpoung I, Phnom Penh, Cambodia") ++
      ".\nhereinafter called the " ++ "“Party A”"
  let party_b_text :=
    c.party_b_position ++ " " ++ c.party_b_signature_name ++ ",\nAddress: " ++
      c.party_b_address ++ "\nH/P: " ++ c.party_b_phone ++ ", E-mail: " ++
      c.party_b_email ++ "\nhereinafter called the " ++ "“Party B”"
  [DocBlock.para []] ++
    addPara "The Service Agreement" true ++
    addPara "On" true ++
    addPara c.project_title true ++
    addPara ("No.: " ++ c.contract_number) true ++
    addPara "BETWEEN" false ++
    addPara party_a_text false ++
    addPara "AND" false ++
    addPara party_b_text false ++
    addPara ("Whereas NGOF is a legal entity registered with the Ministry of Interior (MOI) " ++
      exportRegNumber c ++ " dated " ++ exportRegDate c ++ ".") false ++
    addPara ("Whereas NGOF will engage the services of “Party B” which accepts the " ++
      "engagement under the following terms and conditions.") false ++
    addPara "Both Parties Agreed as follows:" true

/-- The signature block (lines 1276–1348). -/
def signatureBlocks (c : ContractRow) : List DocBlock :=
  let party_a_info := exportPartyAInfo c
  let signer_position :=
    ((party_a_info.find? fun p => p.name = exportPartyASigName c).map PartyA.position).getD
      "Executive Director"
  [DocBlock.para [⟨"Date: " ++ exportStartDisp c, true⟩],
   DocBlock.para [⟨"For “Party A”", true⟩, ⟨"\t", false⟩, ⟨"For “Party B”", true⟩],
   DocBlock.para [⟨"__________________", false⟩, ⟨"\t", false⟩, ⟨"__________________", false⟩],
   DocBlock.para [⟨exportPartyASigName c, true⟩, ⟨"\t", false⟩,
     ⟨c.party_b_signature_name, true⟩],
   DocBlock.para [⟨signer_position, true⟩, ⟨"\t", false⟩, ⟨c.party_b_position, true⟩]]

/-- The body of the DOCX document built by `export_docx` for a contract. -/
def docxBlocks (c : ContractRow) (numWords : Nat → String) : List DocBlock :=
  headerBlocks c ++ articleSection c numWords ++ signatureBlocks c

/-- Outcome of the `export_docx` route. -/
inductive ExportResult where
  | notFound
  | redirectError (message : String)
  | file (filename : String) (blocks : List DocBlock)
  deriving DecidableEq, Repr

/-- `export_docx` (lines 633–1366): `get_or_404` lookup, the admin/ownership
guard, the soft-deletion guard, then the generated document.  When the
stored Party-B email is empty (it is never validated at create, and
`to_dict` maps `None` to `''`), building the Party-B paragraph raises:
`add_paragraph_with_email_formatting` executes `para_text.split(email_text)`
(line 805) and `str.split('')` is a `ValueError`, which the handler's
`except` (line 1363) turns into the flash
`'An error occurred while exporting the contract.'` and a redirect — no
document is sent.  Otherwise the file is returned; its download name is
`sanitize_filename` of the stored Party-B signature name plus `.docx`
(`to_dict` always provides the key, so the `'Contract_' + id` fallback of
line 1360 is never taken). -/
def export_docx (db : List ContractRow) (u : UserCtx) (contract_id : String)
    (numWords : Nat → String) : ExportResult :=
  match db.find? (fun c => c.id = contract_id) with
  | none => .notFound
  | some contract =>
    if !u.isAdmin && contract.user_id ≠ u.id then
      .redirectError "You are not authorized to export this contract."
    else if contract.deleted_at ≠ none then
      .redirectError "This contract has been deleted and cannot be exported."
    else if contract.party_b_email = "" then
      .redirectError "An error occurred while exporting the contract."
    else
      .file (sanitize_filename contract.party_b_signature_name ++ ".docx")
        (docxBlocks contract numWords)

/-- Set `deleted_at` on the first row with the given id (the ORM mutates the
instance returned by the query). -/
def markDeletedFirst : List ContractRow → String → Nat → List ContractRow
  | [], _, _ => []
  | c :: rest, cid, now =>
    if c.id = cid then { c with deleted_at := some now } :: rest
    else c :: markDeletedFirst rest cid now

/-- Outcome of the delete route. -/
inductive DeleteResult where
  | notFound (db : List ContractRow)
  | done (message : String) (db : List ContractRow)
  deriving DecidableEq, Repr

/-- The table state carried by a delete outcome. -/
def DeleteResult.db : DeleteResult → List ContractRow
  | .notFound db => db
  | .done _ db => db

/-- `delete` (lines 1769–1788): `get_or_404`, the admin/ownership guard, the
already-deleted guard, then `deleted_at = datetime.now()` and commit. -/
def deleteContract (db : List ContractRow) (u : UserCtx) (contract_id : String)
    (now : Nat) : DeleteResult :=
  match db.find? (fun c => c.id = contract_id) with
  | none => .notFound db
  | some contract =>
    if !u.isAdmin && contract.user_id ≠ u.id then
      .done "You are not authorized to delete this contract." db
    else if contract.deleted_at ≠ none then
      .done "This contract has already been deleted." db
    else .done "Contract deleted successfully!" (markDeletedFirst db contract_id now)

/-- Insertion into a list sorted by `le`. -/
def insertByLe {α : Type} (le : α → α → Bool) (a : α) : List α → List α
  | [] => [a]
  | b :: l => if le a b then a :: b :: l else b :: insertByLe le a l

/-- Insertion sort by `le` (a model of the SQL `ORDER BY`; only the multiset
of rows matters to the claims below). -/
def sortByLe {α : Type} (le : α → α → Bool) : List α → List α
  | [] => []
  | a :: l => insertByLe le a (sortByLe le l)

/-- The `ORDER BY` dispatch shared by `index` (lines 160–173) and
`export_excel` (lines 2527–2540). -/
def sortContracts (sort_order : String) (l : List ContractRow) : List ContractRow :=
  if sort_order = "contract_number_asc" then
    sortByLe (fun a b => !decide (b.contract_number < a.contract_number)) l
  else if sort_order = "contract_number_desc" then
    sortByLe (fun a b => !decide (a.contract_number < b.contract_number)) l
  else if sort_order = "start_date_asc" then
    sortByLe (fun a b => !decide (b.agreement_start_date < a.agreement_start_date)) l
  else if sort_order = "start_date_desc" then
    sortByLe (fun a b => !decide (a.agreement_start_date < b.agreement_start_date)) l
  else if sort_order = "total_fee_asc" then
    sortByLe (fun a b => decide (a.total_fee_usd ≤ b.total_fee_usd)) l
  else if sort_order = "total_fee_desc" then
    sortByLe (fun a b => decide (b.total_fee_usd ≤ a.total_fee_usd)) l
  else sortByLe (fun a b => decide (b.created_at ≤ a.created_at)) l

/-- The search filter shared by `index` and `export_excel` (lines 153–158,
2519–2524): `ILIKE` on project title, contract number or Party-B name. -/
def searchMatches (search_query : String) (c : ContractRow) : Bool :=
  ilike c.project_title search_query || ilike c.contract_number search_query ||
    ilike c.party_b_signature_name search_query

/-- The `index` query (lines 149–175): non-deleted contracts, restricted to
the current user's own unless the user has the admin role, then searched and
sorted. -/
def indexQuery (db : List ContractRow) (u : UserCtx) (search_query sort_order : String) :
    List ContractRow :=
  let q := db.filter (fun c => c.deleted_at = none)
  let q := if u.isAdmin then q else q.filter (fun c => c.user_id = u.id)
  let q := if search_query ≠ "" then q.filter (searchMatches search_query) else q
  sortContracts sort_order q

/-- `query.paginate(page, per_page)`: the rows of one page of the listing. -/
def paginate {α : Type} (page per_page : Nat) (l : List α) : List α :=
  (l.drop ((page - 1) * per_page)).take per_page

/-- The `export_excel` query (lines 2508–2542): filtered by
`Contract.user_id == current_user.id` for every user — there is no admin
branch in this route — and by `deleted_at == None`, then searched and
sorted. -/
def exportExcelQuery (db : List ContractRow) (u : UserCtx)
    (search_query sort_order : String) : List ContractRow :=
  let q := db.filter (fun c => c.user_id = u.id && c.deleted_at = none)
  let q := if search_query ≠ "" then q.filter (searchMatches search_query) else q
  sortContracts sort_order q

/-- A row of the `user` table (`src/app/models/user.py`, lines 6–13; the
profile and relation columns are not needed by the claims). -/
structure UserRow where
  username : String
  email : String
  password_hash : String
  deriving DecidableEq, Repr

/-- Outcome of a registration submission. -/
inductive RegisterResult where
  /-- Email already registered: redirect back to the form, no insert. -/
  | emailTaken (message : String) (db : List UserRow)
  /-- `db.session.commit()` raised: rollback, re-render. -/
  | dbError (message : String) (db : List UserRow)
  /-- Committed and logged in. -/
  | ok (message : String) (db : List UserRow) (loggedIn : UserRow)
  deriving DecidableEq, Repr

/-- The `user` table carried by a registration outcome. -/
def RegisterResult.db : RegisterResult → List UserRow
  | .emailTaken _ db => db
  | .dbError _ db => db
  | .ok _ db _ => db

/-- `register` (src/app/routes/auth.py, lines 31–54), for a submission that
passes the WTForms validation (the `RegisterForm` class is not in the
snapshot): the email is pre-checked against the stored users; the insert is
then attempted, and a database error during the commit — the `username`
column's unique constraint, which is the only uniqueness check for
usernames — rolls the session back and re-renders.  `hash` abstracts
`werkzeug.security.generate_password_hash`. -/
def register (db : List UserRow) (hash : String → String) (username email password : String) :
    RegisterResult :=
  if db.any (fun user => user.email = email) then
    .emailTaken "Email already registered. Please use a different email." db
  else
    let new_user : UserRow := ⟨username, email, hash password⟩
    if db.any (fun user => user.username = username) then
      .dbError "Registration failed. Please try again later." db
    else
      .ok "Registration successful! Redirecting to dashboard." (db ++ [new_user]) new_user

/-- A state-changing operation on the `contracts` table among the modelled
routes (create and delete; the exports and the index are read-only). -/
inductive ContractOp where
  | createOp (u : UserCtx) (newId : String) (now : Nat) (numWords : Nat → String)
      (f : CreateForm)
  | deleteOp (u : UserCtx) (contract_id : String) (now : Nat)

/-- The transition function of the contracts table. -/
def applyOp (db : List ContractRow) : ContractOp → List ContractRow
  | .createOp u newId now numWords f => (createPost db u newId now numWords f).db
  | .deleteOp u contract_id now => (deleteContract db u contract_id now).db

/-- The percentages extracted from the installment descriptions (skipping
installments without a `(p%)` pattern). -/
def extractedPercents (l : List Installment) : List ℚ :=
  l.filterMap (fun i => searchPercent i.description)

/-- A concrete contract row used by the witnesses below (owned by user 2). -/
def baseContract : ContractRow :=
  { id := "c-1"
    user_id := 2
    project_title := "Research Project"
    contract_number := "NGOF/2025-001"
    organization_name := "NGO Forum"
    party_a_name := ""
    party_a_position := ""
    party_a_address := ""
    party_b_full_name_with_title := "Mr. Sok Dara"
    party_b_address := "Phnom Penh"
    party_b_phone := "012 845 091"
    party_b_email := "dara@example.org"
    registration_number := "#304 សជណ"
    registration_date := "07 March 2012"
    agreement_start_date := "2025-01-01"
    agreement_end_date := "2025-06-30"
    total_fee_usd := 1000
    gross_amount_usd := 1000
    tax_percentage := 15
    payment_gross := "$1000.00 USD"
    payment_net := "$850.00 USD"
    workshop_description := ""
    focal_person_info := [⟨"Ms. Chan Thida", "Program Officer", "012 845 091", "thida@example.org"⟩]
    party_a_signature_name := "Mr. SOEUNG Saroeun"
    party_b_signature_name := "Mr. Sok Dara"
    party_b_position := "Consultant"
    total_fee_words := "One Thousand US Dollars only"
    title := ""
    deliverables := "Draft report; Final report"
    output_description := "Final report"
    custom_article_sentences := [("1", "Extra sentence for article one.")]
    payment_installments :=
      [⟨"First payment (40%)", "Draft report", "2025-02-01"⟩,
       ⟨"Final payment (60%)", "Final report", "2025-06-01"⟩]
    created_at := 10
    deleted_at := none
    party_a_info := [⟨"Mr. SOEUNG Saroeun", "Executive Director", "Phnom Penh"⟩]
    deduct_tax_code := none
    vat_organization_name := none }

/-- `baseContract` with a custom sentence under article 1 that contains a
`'\n\n'` paragraph break. -/
def splitContract : ContractRow :=
  { baseContract with
    custom_article_sentences := [("1", "First extra.\n\nSecond extra.")] }

/-- The admin user of the witnesses. -/
def adminUser : UserCtx := ⟨1, "admin", true⟩

/-- A non-admin user distinct from `baseContract`'s owner. -/
def otherUser : UserCtx := ⟨3, "user", false⟩

/-- The create-route checks that precede the duplicate-number check
(checks 1–9), stated as the conditions under which each passes. -/
@[reducible] def CreateChecksPreDup (f : CreateForm) : Prop :=
  f.partyAInfo ≠ [] ∧
  (f.partyASigner ≠ "" ∧ f.partyASigner ∈ f.partyAInfo.map PartyA.name) ∧
  (f.partyBName ≠ "" ∧ nameRegexOk f.partyBName = true) ∧
  (f.tax_percentage = 0 →
    f.deductTaxCode ≠ "" ∧ taxCodeRegexOk f.deductTaxCode = true ∧
    f.deductTaxCode.length ≤ 50 ∧ f.vatOrganizationName ≠ "" ∧
    f.vatOrganizationName.length ≤ 255) ∧
  f.paymentInstallments ≠ [] ∧
  f.focalPersons ≠ [] ∧
  (f.projectTitle ≠ "" ∧ f.contractNumber ≠ "" ∧ f.outputDescription ≠ "" ∧
    f.organizationName ≠ "" ∧ f.startDate ≠ "" ∧ f.endDate ≠ "" ∧ f.total_fee_usd ≠ 0) ∧
  f.partyBName = f.partyBNameConfirm ∧
  contractNumberRegexOk f.contractNumber = true

/-- No non-deleted stored contract bears the submitted contract number. -/
@[reducible] def NoLiveDup (db : List ContractRow) (f : CreateForm) : Prop :=
  ∀ c ∈ db, c.deleted_at = none → c.contract_number ≠ f.contractNumber

/-- The create-route checks that follow the duplicate-number check
(checks 11–16). -/
def CreateChecksPostDup (f : CreateForm) : Prop :=
  (∃ ds de, parseDate f.startDate = some ds ∧ parseDate f.endDate = some de ∧
    dateLt de ds = false) ∧
  0 ≤ f.total_fee_usd ∧
  (f.tax_percentage = 0 ∨ f.tax_percentage = 5 ∨ f.tax_percentage = 10 ∨
    f.tax_percentage = 15 ∨ f.tax_percentage = 20) ∧
  (∀ i ∈ f.paymentInstallments,
    (searchPercent i.description).isSome = true ∧ (parseDate i.dueDate).isSome = true) ∧
  |(extractedPercents f.paymentInstallments).sum - 100| ≤ 1 / 100 ∧
  (∀ p ∈ f.focalPersons, nameRegexOk p.name = true ∧ positionRegexOk p.position = true ∧
    phoneRegexOk p.phone = true ∧ emailRegexOk p.email = true) ∧
  (∀ p ∈ f.partyAInfo, nameRegexOk p.name = true ∧ positionRegexOk p.position = true ∧
    p.address ≠ "")

/-- A concrete POST that passes every create-route validation. -/
def sampleForm : CreateForm :=
  { party_b_select := "new"
    party_b_signature_name_raw := "Mr. Sok Dara"
    party_a_signer_raw := "Mr. SOEUNG Saroeun"
    deduct_tax_code_raw := ""
    vat_organization_name_raw := ""
    project_title_raw := "Research Project"
    contract_number_raw := "NGOF/2025-001"
    output_description_raw := "Final report"
    tax_percentage := 15
    organization_name_raw := "NGO Forum"
    party_b_position_raw := "Consultant"
    party_b_phone_raw := "012 845 091"
    party_b_email_raw := "dara@example.org"
    party_b_address_raw := "Phnom Penh"
    agreement_start_date_raw := "2025-01-01"
    agreement_end_date_raw := "2025-06-30"
    total_fee_usd := 1000
    total_fee_words_raw := "One Thousand US Dollars only"
    workshop_description_raw := ""
    title_raw := ""
    party_b_signature_name_confirm_raw := "Mr. Sok Dara"
    party_a_names := ["Mr. SOEUNG Saroeun"]
    party_a_positions := ["Executive Director"]
    party_a_addresses := ["Phnom Penh"]
    article_numbers := ["1"]
    article_sentences := ["Extra sentence for article one."]
    inst_descriptions := ["First payment (40%)", "Final payment (60%)"]
    inst_deliverables := ["Draft report", "Final report"]
    inst_due_dates := ["2025-02-01", "2025-06-01"]
    focal_names := ["Ms. Chan Thida"]
    focal_positions := ["Program Officer"]
    focal_phones := ["012 845 091"]
    focal_emails := ["thida@example.org"] }

/-- The sample form with installments of 40% and 50% (total 90%). -/
def badTotalForm : CreateForm :=
  { sampleForm with inst_descriptions := ["First payment (40%)", "Final payment (50%)"] }

/-- The concatenated text of a paragraph's runs. -/
def runsText (runs : List DocRun) : String := String.join (runs.map DocRun.text)

/-- The paragraphs an article contributes between its heading and its custom
sentences: the content paragraphs (with Article 3's financial lines) followed
by the article's table when it has one. -/
def articleBodyBlocks (_c : ContractRow) (a : StdArticle) : List DocBlock :=
  (if a.number = 3 then
     addPara a.content false ++
       ((a.financial_lines.filter (fun line => line ≠ "")).map finLinePara) ++
       addPara a.remaining_content false
   else addPara a.content false) ++
  (match a.table with
   | some rows => [DocBlock.table rows]
   | none => [])

/-! ## Helper lemmas -/

theorem sum_map_fee (F : ℚ) (l : List ℚ) :
    (l.map (fun p => F * p / 100)).sum = F * l.sum / 100 := by
  induction l with
  | nil => simp
  | cons h t ih => simp [ih]; ring

theorem sum_map_fee_net (F t : ℚ) (l : List ℚ) :
    (l.map (fun p => F * p / 100 * (1 - t / 100))).sum = F * l.sum / 100 * (1 - t / 100) := by
  induction l with
  | nil => simp
  | cons h tl ih => simp [ih]; ring

theorem calculate_payments_go (F t : ℚ) (l : List Installment) (a b : ℚ) :
    (l.foldl
      (fun acc installment =>
        match searchPercent installment.description with
        | none => acc
        | some percentage =>
          (acc.1 + F * percentage / 100,
           acc.2 + F * percentage / 100 * (1 - t / 100)))
      (a, b)) =
      (a + ((extractedPercents l).map (fun p => F * p / 100)).sum,
       b + ((extractedPercents l).map (fun p => F * p / 100 * (1 - t / 100))).sum) := by
  induction l generalizing a b with
  | nil => simp [extractedPercents]
  | cons i rest ih =>
    cases h : searchPercent i.description with
    | none => simp [extractedPercents, h, ih, List.filterMap_cons]
    | some p =>
      simp only [List.foldl_cons, h, ih, extractedPercents, List.filterMap_cons,
        List.map_cons, List.sum_cons]
      rw [Prod.mk.injEq]
      constructor <;> ring

/-! ## Claims -/

/-- C4: for every total fee `F`, tax rate `t` and installment list,
`calculate_payments` returns the pair of sums, over exactly those
installments whose description contains a parenthesized percentage `(p%)`,
of the gross contributions `F*p/100` and the net contributions
`F*p/100*(1 - t/100)`, skipping installments without such a pattern; and
when every installment's description parses and the extracted percentages
sum to 100, the returned total gross equals `F`. -/
theorem C4_calculate_payments_sums (F t : ℚ) (l : List Installment) :
    calculate_payments F t l =
      (((extractedPercents l).map (fun p => F * p / 100)).sum,
       ((extractedPercents l).map (fun p => F * p / 100 * (1 - t / 100))).sum) ∧
    ((∀ i ∈ l, (searchPercent i.description).isSome) →
      (extractedPercents l).sum = 100 → (calculate_payments F t l).1 = F) := by
  have hgo := calculate_payments_go F t l 0 0
  have heq : calculate_payments F t l =
      (((extractedPercents l).map (fun p => F * p / 100)).sum,
       ((extractedPercents l).map (fun p => F * p / 100 * (1 - t / 100))).sum) := by
    unfold calculate_payments
    rw [hgo]
    simp
  refine ⟨heq, fun _ hsum => ?_⟩
  rw [heq]
  simp only [sum_map_fee, hsum]
  norm_num

/-- Witness for C4 at a concrete input: fee 200, tax 10, two installments of
40% and 60%; the total gross equals the fee. -/
theorem C4_calculate_payments_sums_witness :
    (calculate_payments 200 10
      [⟨"First payment (40%)", "draft", "2025-01-01"⟩,
       ⟨"Final payment (60%)", "report", "2025-02-01"⟩]).1 = 200 := by
  refine (C4_calculate_payments_sums 200 10
    [⟨"First payment (40%)", "draft", "2025-01-01"⟩,
     ⟨"Final payment (60%)", "report", "2025-02-01"⟩]).2 (by decide) ?_
  have h : extractedPercents
      [⟨"First payment (40%)", "draft", "2025-01-01"⟩,
       ⟨"Final payment (60%)", "report", "2025-02-01"⟩] = [40, 60] := rfl
  rw [h]
  norm_num

/-- C5: `calculate_installment_payments F t p` returns a triple
`(gross, tax, net)` with `gross = F*p/100`, `tax = gross*(t/100)` and
`net = gross - tax`, so `gross = tax + net`; the amounts of every data row of
the payment-schedule table are exactly this triple for the row's installment,
so the identity holds for every row written into the table.  (The source's
`except` fallback to `(0.0, 0.0, 0.0)` is unreachable: the body is total
arithmetic, so it is not part of the embedding.) -/
theorem C5_calculate_installment_payments (F t p : ℚ) :
    (calculate_installment_payments F t p).1 = F * p / 100 ∧
    (calculate_installment_payments F t p).2.1 =
      (calculate_installment_payments F t p).1 * (t / 100) ∧
    (calculate_installment_payments F t p).2.2 =
      (calculate_installment_payments F t p).1 - (calculate_installment_payments F t p).2.1 ∧
    (calculate_installment_payments F t p).1 =
      (calculate_installment_payments F t p).2.1 + (calculate_installment_payments F t p).2.2 ∧
    (∀ i : Installment,
      (scheduleRowOf F t i).amounts =
        ["- Gross: $" ++
           formatQ2 (calculate_installment_payments F t ((searchPercent i.description).getD 0)).1,
         if 0 < t then
           "- Tax " ++ pyFloatRepr t ++ "%: $" ++
             formatQ2 (calculate_installment_payments F t ((searchPercent i.description).getD 0)).2.1
         else "",
         "- Net pay: $" ++
           formatQ2 (calculate_installment_payments F t ((searchPercent i.description).getD 0)).2.2]) := by
  refine ⟨rfl, rfl, ?_, ?_, fun i => rfl⟩
  · simp [calculate_installment_payments]
  · simp only [calculate_installment_payments]
    ring

/-- C10: `generate_next_contract_number` returns `NGOF/<year>-001` when the
last number is absent, empty, not matched by the `NGOF/(\d{4})-(\d{3})`
pattern, or carries a different year; when the pattern matches with the
current year it returns the incremented number, zero-padded to at least
three digits (`pad3` pads to width 3 and `pad3` output always has at least
three characters). -/
theorem C10_generate_next (last : Option String) (year : Nat) :
    ((last = none ∨ last = some "") →
      generate_next_contract_number last year = "NGOF/" ++ toString year ++ "-001") ∧
    (∀ s, last = some s → s ≠ "" → ngofMatch s = none →
      generate_next_contract_number last year = "NGOF/" ++ toString year ++ "-001") ∧
    (∀ s ys n, last = some s → ngofMatch s = some (ys, n) → ys = toString year →
      generate_next_contract_number last year = "NGOF/" ++ ys ++ "-" ++ pad3 (n + 1)) ∧
    (∀ s ys n, last = some s → ngofMatch s = some (ys, n) → ys ≠ toString year →
      generate_next_contract_number last year = "NGOF/" ++ toString year ++ "-001") ∧
    (∀ m : Nat, 3 ≤ (pad3 m).length) := by
  refine ⟨?_, ?_, ?_, ?_, ?_⟩
  · rintro (rfl | rfl) <;> simp [generate_next_contract_number]
  · rintro s rfl hne hm
    simp [generate_next_contract_number, hne, hm]
  · rintro s ys n rfl hm hy
    have hne : s ≠ "" := by
      rintro rfl
      simp [ngofMatch] at hm
    simp [generate_next_contract_number, hne, hm, hy]
  · rintro s ys n rfl hm hy
    have hne : s ≠ "" := by
      rintro rfl
      simp [ngofMatch] at hm
    simp [generate_next_contract_number, hne, hm, hy]
  · intro m
    unfold pad3
    by_cases h : (toString m).length < 3 <;> simp [h, String.length_append] <;> omega

/-- Witness for C10: incrementing `NGOF/2025-007` in 2025 yields
`NGOF/2025-008`. -/
theorem C10_generate_next_witness :
    generate_next_contract_number (some "NGOF/2025-007") 2025 = "NGOF/2025-008" := by
  have h := (C10_generate_next (some "NGOF/2025-007") 2025).2.2.1 "NGOF/2025-007" "2025" 7
    rfl (by decide) (by decide)
  simpa using h

/-- C7: every registration submission either commits a single new user with
the submitted username, submitted email and the hash of the submitted
password (and logs that user in), or leaves the stored users unchanged: a
stored email is rejected before the insert with
`'Email already registered. Please use a different email.'`, and a database
error during the insert — a duplicate username, checked only by the column's
unique constraint — rolls the session back. -/
theorem C7_register_atomic (db : List UserRow) (hash : String → String)
    (username email password : String) :
    ((register db hash username email password).db = db ∨
      (register db hash username email password).db =
        db ++ [⟨username, email, hash password⟩]) ∧
    ((∃ user ∈ db, user.email = email) →
      register db hash username email password =
        .emailTaken "Email already registered. Please use a different email." db) ∧
    ((∀ user ∈ db, user.email ≠ email) → (∃ user ∈ db, user.username = username) →
      register db hash username email password =
        .dbError "Registration failed. Please try again later." db) ∧
    ((∀ user ∈ db, user.email ≠ email) → (∀ user ∈ db, user.username ≠ username) →
      register db hash username email password =
        .ok "Registration successful! Redirecting to dashboard."
          (db ++ [⟨username, email, hash password⟩]) ⟨username, email, hash password⟩) := by
  refine ⟨?_, ?_, ?_, ?_⟩
  · unfold register
    by_cases h1 : db.any (fun user => user.email = email) <;>
      by_cases h2 : db.any (fun user => user.username = username) <;>
        simp [h1, h2, RegisterResult.db]
  · intro h
    have h1 : db.any (fun user => user.email = email) = true := by
      simp only [List.any_eq_true, decide_eq_true_eq]
      exact h
    simp [register, h1]
  · intro hno h
    have h1 : db.any (fun user => user.email = email) = false := by
      simp only [List.any_eq_false, decide_eq_true_eq]
      exact hno
    have h2 : db.any (fun user => user.username = username) = true := by
      simp only [List.any_eq_true, decide_eq_true_eq]
      exact h
    simp [register, h1, h2]
  · intro hno1 hno2
    have h1 : db.any (fun user => user.email = email) = false := by
      simp only [List.any_eq_false, decide_eq_true_eq]
      exact hno1
    have h2 : db.any (fun user => user.username = username) = false := by
      simp only [List.any_eq_false, decide_eq_true_eq]
      exact hno2
    simp [register, h1, h2]

/-- Witness for C7: registering a fresh username and email against a
one-user table commits exactly that user. -/
theorem C7_register_atomic_witness :
    register [⟨"alice", "alice@example.org", "h1"⟩] (fun s => s ++ "#") "bob"
        "bob@example.org" "pw" =
      .ok "Registration successful! Redirecting to dashboard."
        [⟨"alice", "alice@example.org", "h1"⟩, ⟨"bob", "bob@example.org", "pw#"⟩]
        ⟨"bob", "bob@example.org", "pw#"⟩ := by
  have h := (C7_register_atomic [⟨"alice", "alice@example.org", "h1"⟩] (fun s => s ++ "#")
    "bob" "bob@example.org" "pw").2.2.2 (by decide) (by decide)
  simpa using h

theorem mem_insertByLe {α : Type} (le : α → α → Bool) (a x : α) (l : List α) :
    x ∈ insertByLe le a l ↔ x = a ∨ x ∈ l := by
  induction l with
  | nil => simp [insertByLe]
  | cons b t ih =>
    by_cases h : le a b
    · simp [insertByLe, h]
    · simp [insertByLe, h, ih]
      tauto

theorem mem_sortByLe {α : Type} (le : α → α → Bool) (x : α) (l : List α) :
    x ∈ sortByLe le l ↔ x ∈ l := by
  induction l with
  | nil => simp [sortByLe]
  | cons a t ih => simp [sortByLe, mem_insertByLe, ih]

theorem mem_sortContracts (sort_order : String) (x : ContractRow) (l : List ContractRow) :
    x ∈ sortContracts sort_order l ↔ x ∈ l := by
  unfold sortContracts
  split_ifs <;> exact mem_sortByLe _ x l

theorem length_markDeletedFirst (db : List ContractRow) (cid : String) (now : Nat) :
    (markDeletedFirst db cid now).length = db.length := by
  induction db with
  | nil => rfl
  | cons x rest ih =>
    by_cases h : x.id = cid <;> simp [markDeletedFirst, h, ih]

theorem marked_mem_markDeletedFirst (db : List ContractRow) (cid : String) (now : Nat)
    (c : ContractRow) (hfind : db.find? (fun x => x.id = cid) = some c) :
    { c with deleted_at := some now } ∈ markDeletedFirst db cid now := by
  induction db with
  | nil => simp at hfind
  | cons x rest ih =>
    by_cases h : x.id = cid
    · rw [List.find?_cons_of_pos _ (by simpa using h)] at hfind
      cases hfind
      simp [markDeletedFirst, h]
    · rw [List.find?_cons_of_neg _ (by simpa using h)] at hfind
      simp [markDeletedFirst, h]
      exact Or.inr (ih hfind)

theorem mem_markDeletedFirst_of_ne (db : List ContractRow) (cid : String) (now : Nat)
    (x : ContractRow) (hmem : x ∈ db) (hne : x.id ≠ cid) :
    x ∈ markDeletedFirst db cid now := by
  induction db with
  | nil => simp at hmem
  | cons y rest ih =>
    rcases List.mem_cons.1 hmem with rfl | hmem'
    · simp [markDeletedFirst, hne]
    · by_cases h : y.id = cid
      · simp [markDeletedFirst, h]
        exact Or.inr hmem'
      · simp [markDeletedFirst, h]
        exact Or.inr (ih hmem')

theorem deleted_mem_markDeletedFirst (db : List ContractRow) (cid : String) (now t : Nat)
    (c c₀ : ContractRow) (hmem : c ∈ db) (hdel : c.deleted_at = some t)
    (hfind : db.find? (fun x => x.id = cid) = some c₀) (hc₀ : c₀.deleted_at = none) :
    c ∈ markDeletedFirst db cid now := by
  induction db with
  | nil => simp at hmem
  | cons x rest ih =>
    by_cases h : x.id = cid
    · rw [List.find?_cons_of_pos _ (by simpa using h)] at hfind
      cases hfind
      rcases List.mem_cons.1 hmem with rfl | hmem'
      · rw [hdel] at hc₀
        cases hc₀
      · simp [markDeletedFirst, h]
        exact Or.inr hmem'
    · rw [List.find?_cons_of_neg _ (by simpa using h)] at hfind
      rcases List.mem_cons.1 hmem with rfl | hmem'
      · simp [markDeletedFirst, h]
      · simp [markDeletedFirst, h]
        exact Or.inr (ih hmem' hfind)

theorem mem_createPost_db (db : List ContractRow) (u : UserCtx) (newId : String) (now : Nat)
    (numWords : Nat → String) (f : CreateForm) (c : ContractRow) (hmem : c ∈ db) :
    c ∈ (createPost db u newId now numWords f).db := by
  unfold createPost
  cases validateCreate db f <;> simp [CreateResult.db, hmem]

theorem mem_deleteContract_db (db : List ContractRow) (u : UserCtx) (cid : String)
    (now t : Nat) (c : ContractRow) (hmem : c ∈ db) (hdel : c.deleted_at = some t) :
    c ∈ (deleteContract db u cid now).db := by
  unfold deleteContract
  cases hfind : db.find? (fun x => x.id = cid) with
  | none => exact hmem
  | some c₀ =>
    dsimp only
    split_ifs with h1 h2
    · exact hmem
    · exact hmem
    · have hc₀ : c₀.deleted_at = none := by
        by_contra hcon
        exact h2 hcon
      exact deleted_mem_markDeletedFirst db cid now t c c₀ hmem hdel hfind hc₀

/-- C8: contract deletion is soft and permanent.  Deleting a live contract
(authorized: admin or owner) sets `deleted_at` on that row, keeps the row
count and every other row; once `deleted_at` is set, every modelled
state-changing operation (create, delete) keeps the deleted row with its
`deleted_at` unchanged; the index query never lists it (for any user, search
and sort, hence on no page); `export_docx` on it yields no file but the
deleted-contract redirect; and a second delete leaves the table unchanged
with `'This contract has already been deleted.'`. -/
theorem C8_soft_delete_permanent (db : List ContractRow) (u : UserCtx) (cid : String)
    (now t : Nat) (c : ContractRow) :
    (db.find? (fun x => x.id = cid) = some c → (u.isAdmin = true ∨ c.user_id = u.id) →
      c.deleted_at = none →
      deleteContract db u cid now =
        .done "Contract deleted successfully!" (markDeletedFirst db cid now) ∧
      { c with deleted_at := some now } ∈ markDeletedFirst db cid now ∧
      (markDeletedFirst db cid now).length = db.length ∧
      (∀ x ∈ db, x.id ≠ cid → x ∈ markDeletedFirst db cid now)) ∧
    (c ∈ db → c.deleted_at = some t → ∀ op : ContractOp, c ∈ applyOp db op) ∧
    (c.deleted_at = some t → ∀ search_query sort_order,
      c ∉ indexQuery db u search_query sort_order ∧
      ∀ page per_page,
        c ∉ paginate page per_page (indexQuery db u search_query sort_order)) ∧
    (db.find? (fun x => x.id = cid) = some c → (u.isAdmin = true ∨ c.user_id = u.id) →
      c.deleted_at = some t → ∀ numWords,
      export_docx db u cid numWords =
        .redirectError "This contract has been deleted and cannot be exported.") ∧
    (db.find? (fun x => x.id = cid) = some c → (u.isAdmin = true ∨ c.user_id = u.id) →
      c.deleted_at = some t →
      deleteContract db u cid now = .done "This contract has already been deleted." db) := by
  refine ⟨?_, ?_, ?_, ?_, ?_⟩
  · intro hfind hauth hlive
    refine ⟨?_, marked_mem_markDeletedFirst db cid now c hfind,
      length_markDeletedFirst db cid now, fun x hx hne => mem_markDeletedFirst_of_ne db cid now x hx hne⟩
    unfold deleteContract
    rw [hfind]
    dsimp only
    split_ifs with h1 h2
    · exfalso
      rcases hauth with h | h <;> simp [h] at h1
    · exfalso
      rw [hlive] at h2
      exact h2 rfl
    · rfl
  · intro hmem hdel op
    cases op with
    | createOp u' newId now' numWords f => exact mem_createPost_db db u' newId now' numWords f c hmem
    | deleteOp u' cid' now' => exact mem_deleteContract_db db u' cid' now' t c hmem hdel
  · intro hdel search_query sort_order
    have hnot : c ∉ indexQuery db u search_query sort_order := by
      intro hmem
      unfold indexQuery at hmem
      rw [mem_sortContracts] at hmem
      have : c.deleted_at = none := by
        split_ifs at hmem <;> simp_all [List.mem_filter]
      rw [hdel] at this
      cases this
    refine ⟨hnot, fun page per_page hmem => ?_⟩
    exact hnot (List.mem_of_mem_drop (List.mem_of_mem_take hmem))
  · intro hfind hauth hdel numWords
    unfold export_docx
    rw [hfind]
    dsimp only
    split_ifs with h1 h2 h3
    · exfalso
      rcases hauth with h | h <;> simp [h] at h1
    · rfl
    · exfalso
      rw [hdel] at h2
      exact h2 (by simp)
    · exfalso
      rw [hdel] at h2
      exact h2 (by simp)
  · intro hfind hauth hdel
    unfold deleteContract
    rw [hfind]
    dsimp only
    split_ifs with h1 h2
    · exfalso
      rcases hauth with h | h <;> simp [h] at h1
    · rfl
    · exfalso
      rw [hdel] at h2
      exact h2 (by simp)

/-- Witness for C8: a second delete (by an admin) of an already
soft-deleted contract leaves the table unchanged with the already-deleted
message. -/
theorem C8_soft_delete_permanent_witness :
    deleteContract [{ baseContract with deleted_at := some 5 }] adminUser "c-1" 7 =
      .done "This contract has already been deleted."
        [{ baseContract with deleted_at := some 5 }] := by
  exact (C8_soft_delete_permanent [{ baseContract with deleted_at := some 5 }] adminUser
    "c-1" 7 5 { baseContract with deleted_at := some 5 }).2.2.2.2 rfl (Or.inl rfl) rfl

/-- C9 counterexample: the claim asserts that a user with the admin role is
exempt from the ownership check in each listed operation, `export_excel`
included.  At this concrete input an admin (id 1) and a live contract owned
by user 2: the index query (admin branch) lists the contract, but the
`export_excel` query — which filters `Contract.user_id == current_user.id`
unconditionally (src/app/routes/contract.py, line 2516) — omits it. -/
theorem C9_ownership_counterexample :
    adminUser.isAdmin = true ∧
    baseContract.user_id ≠ adminUser.id ∧
    baseContract.deleted_at = none ∧
    baseContract ∈ indexQuery [baseContract] adminUser "" "created_at_desc" ∧
    baseContract ∉ exportExcelQuery [baseContract] adminUser "" "created_at_desc" := by
  have h4 : baseContract ∈ indexQuery [baseContract] adminUser "" "created_at_desc" := by
    unfold indexQuery
    rw [mem_sortContracts]
    simp [adminUser]
    rfl
  have h5 : baseContract ∉ exportExcelQuery [baseContract] adminUser "" "created_at_desc" := by
    intro hmem
    unfold exportExcelQuery at hmem
    rw [mem_sortContracts] at hmem
    simp [adminUser, baseContract] at hmem
  exact ⟨rfl, by decide, rfl, h4, h5⟩

/-- C9, amended: non-admin contract access is confined to owned contracts in
the index query, `export_docx` and `delete`; the admin role is exempt from
the ownership check in the index query, `export_docx` (never the
authorization redirect; the document itself is produced whenever the stored
Party-B email is nonempty, empty emails hitting the route's
`str.split('')` `ValueError` error redirect instead) and `delete`; but the
`export_excel` query restricts every user — admins included — to contracts
whose `user_id` equals the current user's id. -/
theorem C9_ownership_amended :
    (∀ (db : List ContractRow) (u : UserCtx) (sq so : String) (c : ContractRow),
      u.isAdmin = false → c ∈ indexQuery db u sq so → c.user_id = u.id) ∧
    (∀ (db : List ContractRow) (u : UserCtx) (sq so : String) (c : ContractRow),
      c ∈ exportExcelQuery db u sq so → c.user_id = u.id) ∧
    (∀ (db : List ContractRow) (u : UserCtx) (cid : String) (numWords : Nat → String)
      (c : ContractRow), u.isAdmin = false → db.find? (fun x => x.id = cid) = some c →
      c.user_id ≠ u.id →
      export_docx db u cid numWords =
        .redirectError "You are not authorized to export this contract.") ∧
    (∀ (db : List ContractRow) (u : UserCtx) (cid : String) (now : Nat) (c : ContractRow),
      u.isAdmin = false → db.find? (fun x => x.id = cid) = some c → c.user_id ≠ u.id →
      deleteContract db u cid now =
        .done "You are not authorized to delete this contract." db) ∧
    (∀ (db : List ContractRow) (u : UserCtx) (so : String) (c : ContractRow),
      u.isAdmin = true → c ∈ db → c.deleted_at = none → c ∈ indexQuery db u "" so) ∧
    (∀ (db : List ContractRow) (u : UserCtx) (cid : String) (numWords : Nat → String)
      (c : ContractRow), u.isAdmin = true → db.find? (fun x => x.id = cid) = some c →
      c.deleted_at = none → c.party_b_email ≠ "" →
      export_docx db u cid numWords =
        .file (sanitize_filename c.party_b_signature_name ++ ".docx") (docxBlocks c numWords)) ∧
    (∀ (db : List ContractRow) (u : UserCtx) (cid : String) (numWords : Nat → String)
      (c : ContractRow), u.isAdmin = true → db.find? (fun x => x.id = cid) = some c →
      export_docx db u cid numWords ≠
        .redirectError "You are not authorized to export this contract.") ∧
    (∀ (db : List ContractRow) (u : UserCtx) (cid : String) (now : Nat) (c : ContractRow),
      u.isAdmin = true → db.find? (fun x => x.id = cid) = some c → c.deleted_at = none →
      deleteContract db u cid now =
        .done "Contract deleted successfully!" (markDeletedFirst db cid now)) := by
  refine ⟨?_, ?_, ?_, ?_, ?_, ?_, ?_, ?_⟩
  · intro db u sq so c hu hmem
    unfold indexQuery at hmem
    rw [mem_sortContracts] at hmem
    rw [hu] at hmem
    simp only [Bool.false_eq_true, if_false] at hmem
    split_ifs at hmem <;> simp [List.mem_filter] at hmem <;> tauto
  · intro db u sq so c hmem
    unfold exportExcelQuery at hmem
    rw [mem_sortContracts] at hmem
    split_ifs at hmem <;> simp [List.mem_filter] at hmem <;> tauto
  · intro db u cid numWords c hu hfind hne
    unfold export_docx
    rw [hfind]
    dsimp only
    split_ifs with h1
    · rfl
    · exfalso
      exact h1 (by simp [hu, hne])
    · exfalso
      exact h1 (by simp [hu, hne])
    · exfalso
      exact h1 (by simp [hu, hne])
  · intro db u cid now c hu hfind hne
    unfold deleteContract
    rw [hfind]
    dsimp only
    split_ifs with h1
    · rfl
    · exfalso
      exact h1 (by simp [hu, hne])
    · exfalso
      exact h1 (by simp [hu, hne])
  · intro db u so c hu hmem hlive
    unfold indexQuery
    rw [mem_sortContracts]
    rw [hu]
    simp [List.mem_filter, hmem, hlive]
  · intro db u cid numWords c hu hfind hlive hemail
    unfold export_docx
    rw [hfind]
    dsimp only
    split_ifs with h1 h2
    · exfalso
      simp [hu] at h1
    · exfalso
      rw [hlive] at h2
      exact h2 rfl
    · rfl
  · intro db u cid numWords c hu hfind
    unfold export_docx
    rw [hfind]
    dsimp only
    split_ifs with h1 h2 h3
    · exfalso
      simp [hu] at h1
    · decide
    · decide
    · simp
  · intro db u cid now c hu hfind hlive
    unfold deleteContract
    rw [hfind]
    dsimp only
    split_ifs with h1 h2
    · exfalso
      simp [hu] at h1
    · exfalso
      rw [hlive] at h2
      exact h2 rfl
    · rfl

/-- Witness for C9 (amended): a non-admin who does not own `baseContract` is
turned away by `export_docx` with the authorization flash. -/
theorem C9_ownership_amended_witness :
    export_docx [baseContract] otherUser "c-1" (fun _ => "") =
      .redirectError "You are not authorized to export this contract." := by
  exact C9_ownership_amended.2.2.1 [baseContract] otherUser "c-1" (fun _ => "")
    baseContract rfl rfl (by decide)

theorem vchain_eq_none (a b : Option String) : vchain a b = none ↔ a = none ∧ b = none := by
  cases a <;> simp [vchain]

theorem vPartyA_none (f : CreateForm) (h : f.partyAInfo ≠ []) : vPartyA f = none := by
  simp [vPartyA, h]

theorem vSigner_none (f : CreateForm) (h1 : f.partyASigner ≠ "")
    (h2 : f.partyASigner ∈ f.partyAInfo.map PartyA.name) : vSigner f = none := by
  simp [vSigner, h1, h2]

theorem vPartyBName_none (f : CreateForm) (h1 : f.partyBName ≠ "")
    (h2 : nameRegexOk f.partyBName = true) : vPartyBName f = none := by
  simp [vPartyBName, h1, h2]

theorem vVat_none (f : CreateForm)
    (h : f.tax_percentage = 0 →
      f.deductTaxCode ≠ "" ∧ taxCodeRegexOk f.deductTaxCode = true ∧
      f.deductTaxCode.length ≤ 50 ∧ f.vatOrganizationName ≠ "" ∧
      f.vatOrganizationName.length ≤ 255) : vVat f = none := by
  unfold vVat
  by_cases h0 : f.tax_percentage = 0
  · obtain ⟨h1, h2, h3, h4, h5⟩ := h h0
    simp [h0, h1, h2, h3, h4, h5, not_lt.2 h3, not_lt.2 h5]
  · simp [h0]

theorem vInstNonempty_none (f : CreateForm) (h : f.paymentInstallments ≠ []) :
    vInstNonempty f = none := by
  simp [vInstNonempty, h]

theorem vFocalNonempty_none (f : CreateForm) (h : f.focalPersons ≠ []) :
    vFocalNonempty f = none := by
  simp [vFocalNonempty, h]

theorem vRequired_none (f : CreateForm)
    (h : f.projectTitle ≠ "" ∧ f.contractNumber ≠ "" ∧ f.outputDescription ≠ "" ∧
      f.organizationName ≠ "" ∧ f.startDate ≠ "" ∧ f.endDate ≠ "" ∧ f.total_fee_usd ≠ 0)
    (hb : f.partyBName ≠ "") : vRequired f = none := by
  obtain ⟨h1, h2, h3, h4, h5, h6, h7⟩ := h
  simp [vRequired, h1, h2, h3, h4, h5, h6, h7, hb]

theorem vConfirm_none (f : CreateForm) (h : f.partyBName = f.partyBNameConfirm) :
    vConfirm f = none := by
  simp [vConfirm, h]

theorem vFormat_none (f : CreateForm) (h : contractNumberRegexOk f.contractNumber = true) :
    vFormat f = none := by
  simp [vFormat, h]

theorem vDup_none (db : List ContractRow) (f : CreateForm) (h : NoLiveDup db f) :
    vDup db f = none := by
  unfold vDup
  have : db.any (fun c => c.contract_number = f.contractNumber && c.deleted_at = none) = false := by
    simp only [List.any_eq_false, Bool.and_eq_true, decide_eq_true_eq, not_and]
    intro c hc hnum
    exact fun hdel => h c hc hdel hnum
  simp [this]

theorem vDup_some (db : List ContractRow) (f : CreateForm)
    (h : ∃ c ∈ db, c.contract_number = f.contractNumber ∧ c.deleted_at = none) :
    vDup db f = some "Contract number already exists." := by
  unfold vDup
  have : db.any (fun c => c.contract_number = f.contractNumber && c.deleted_at = none) = true := by
    simp only [List.any_eq_true, Bool.and_eq_true, decide_eq_true_eq]
    obtain ⟨c, hc, h1, h2⟩ := h
    exact ⟨c, hc, h1, h2⟩
  simp [this]

theorem vDates_none (f : CreateForm)
    (h : ∃ ds de, parseDate f.startDate = some ds ∧ parseDate f.endDate = some de ∧
      dateLt de ds = false) : vDates f = none := by
  obtain ⟨ds, de, hs, he, hlt⟩ := h
  unfold vDates
  split_ifs with hcond
  · rw [he, hs]
    simp [hlt]
  · rfl

theorem vFee_none (f : CreateForm) (h : 0 ≤ f.total_fee_usd) : vFee f = none := by
  simp [vFee, not_lt.2 h]

theorem vTax_none (f : CreateForm)
    (h : f.tax_percentage = 0 ∨ f.tax_percentage = 5 ∨ f.tax_percentage = 10 ∨
      f.tax_percentage = 15 ∨ f.tax_percentage = 20) : vTax f = none := by
  rcases h with h | h | h | h | h <;> simp [vTax, h]

theorem checkInstallmentsLoop_ok (l : List Installment) (acc : ℚ)
    (h : ∀ i ∈ l, (searchPercent i.description).isSome = true ∧
      (parseDate i.dueDate).isSome = true) :
    checkInstallmentsLoop l acc = .ok (acc + (extractedPercents l).sum) := by
  induction l generalizing acc with
  | nil => simp [checkInstallmentsLoop, extractedPercents]
  | cons i rest ih =>
    obtain ⟨hp, hd⟩ := h i (List.mem_cons_self i rest)
    obtain ⟨p, hp'⟩ := Option.isSome_iff_exists.1 hp
    obtain ⟨d, hd'⟩ := Option.isSome_iff_exists.1 hd
    have hrest := fun j hj => h j (List.mem_cons_of_mem i hj)
    simp only [checkInstallmentsLoop, hp', hd', ih (acc + p) hrest, extractedPercents,
      List.filterMap_cons, List.sum_cons]
    rw [add_assoc]

theorem checkInstallmentsLoop_ok_inv (l : List Installment) (acc total : ℚ)
    (h : checkInstallmentsLoop l acc = .ok total) :
    (∀ i ∈ l, (searchPercent i.description).isSome = true) ∧
      total = acc + (extractedPercents l).sum := by
  induction l generalizing acc with
  | nil =>
    simp [checkInstallmentsLoop] at h
    simp [extractedPercents, h]
  | cons i rest ih =>
    cases hp : searchPercent i.description with
    | none => simp [checkInstallmentsLoop, hp] at h
    | some p =>
      cases hd : parseDate i.dueDate with
      | none => simp [checkInstallmentsLoop, hp, hd] at h
      | some d =>
        rw [checkInstallmentsLoop, hp, hd] at h
        obtain ⟨hall, htot⟩ := ih (acc + p) h
        refine ⟨?_, ?_⟩
        · intro j hj
          rcases List.mem_cons.1 hj with rfl | hj'
          · simp [hp]
          · exact hall j hj'
        · rw [htot]
          simp [extractedPercents, List.filterMap_cons, hp]
          ring

theorem vInstallments_none (f : CreateForm)
    (h : ∀ i ∈ f.paymentInstallments,
      (searchPercent i.description).isSome = true ∧ (parseDate i.dueDate).isSome = true)
    (htol : |(extractedPercents f.paymentInstallments).sum - 100| ≤ 1 / 100) :
    vInstallments f = none := by
  unfold vInstallments
  rw [checkInstallmentsLoop_ok _ _ h]
  dsimp only
  rw [zero_add, if_neg (not_lt.2 htol)]

theorem vInstallments_some_total (f : CreateForm)
    (h : ∀ i ∈ f.paymentInstallments,
      (searchPercent i.description).isSome = true ∧ (parseDate i.dueDate).isSome = true)
    (htol : 1 / 100 < |(extractedPercents f.paymentInstallments).sum - 100|) :
    vInstallments f = some "Total percentage of payment installments must equal 100%." := by
  unfold vInstallments
  rw [checkInstallmentsLoop_ok _ _ h]
  dsimp only
  rw [zero_add, if_pos htol]

theorem checkFocalLoop_none (l : List FocalPerson)
    (h : ∀ p ∈ l, nameRegexOk p.name = true ∧ positionRegexOk p.position = true ∧
      phoneRegexOk p.phone = true ∧ emailRegexOk p.email = true) :
    checkFocalLoop l = none := by
  induction l with
  | nil => rfl
  | cons p rest ih =>
    obtain ⟨h1, h2, h3, h4⟩ := h p (List.mem_cons_self p rest)
    simp [checkFocalLoop, h1, h2, h3, h4, ih (fun q hq => h q (List.mem_cons_of_mem p hq))]

theorem checkPartyALoop_none (l : List PartyA)
    (h : ∀ p ∈ l, nameRegexOk p.name = true ∧ positionRegexOk p.position = true ∧
      p.address ≠ "") :
    checkPartyALoop l = none := by
  induction l with
  | nil => rfl
  | cons p rest ih =>
    obtain ⟨h1, h2, h3⟩ := h p (List.mem_cons_self p rest)
    simp [checkPartyALoop, h1, h2, h3, ih (fun q hq => h q (List.mem_cons_of_mem p hq))]

/-- All sixteen create-route validations pass when the three validity
predicates hold. -/
theorem validateCreate_none (db : List ContractRow) (f : CreateForm)
    (h1 : CreateChecksPreDup f) (h2 : NoLiveDup db f) (h3 : CreateChecksPostDup f) :
    validateCreate db f = none := by
  obtain ⟨ha, ⟨hs1, hs2⟩, ⟨hb1, hb2⟩, hvat, hinst, hfocal, hreq, hconf, hfmt⟩ := h1
  obtain ⟨hdates, hfee, htax, hloop, htol, hfoc, hpa⟩ := h3
  rw [validateCreate]
  rw [vPartyA_none f ha, vSigner_none f hs1 hs2, vPartyBName_none f hb1 hb2,
    vVat_none f hvat, vInstNonempty_none f hinst, vFocalNonempty_none f hfocal,
    vRequired_none f hreq hb1, vConfirm_none f hconf, vFormat_none f hfmt,
    vDup_none db f h2, vDates_none f hdates, vFee_none f hfee, vTax_none f htax,
    vInstallments_none f hloop htol]
  rw [show vFocalValid f = none from checkFocalLoop_none _ hfoc,
    show vPartyAValid f = none from checkPartyALoop_none _ hpa]
  rfl

/-- C1: a POST to the contract create route that passes all of its form
validations commits a new `Contract` row holding the submitted field values
and redirects with `'Contract created successfully!'`. -/
theorem C1_create_commits (db : List ContractRow) (u : UserCtx) (newId : String)
    (now : Nat) (numWords : Nat → String) (f : CreateForm)
    (h1 : CreateChecksPreDup f) (h2 : NoLiveDup db f) (h3 : CreateChecksPostDup f) :
    createPost db u newId now numWords f =
      .redirect "Contract created successfully!" (db ++ [mkContract u newId now numWords f]) ∧
    (mkContract u newId now numWords f).id = newId ∧
    (mkContract u newId now numWords f).user_id = u.id ∧
    (mkContract u newId now numWords f).project_title = f.projectTitle ∧
    (mkContract u newId now numWords f).contract_number = f.contractNumber ∧
    (mkContract u newId now numWords f).organization_name = f.organizationName ∧
    (mkContract u newId now numWords f).party_a_info = f.partyAInfo ∧
    (mkContract u newId now numWords f).party_b_signature_name = f.partyBName ∧
    (mkContract u newId now numWords f).party_b_position = f.partyBPosition ∧
    (mkContract u newId now numWords f).party_b_phone = f.partyBPhone ∧
    (mkContract u newId now numWords f).party_b_email = f.partyBEmail ∧
    (mkContract u newId now numWords f).party_b_address = f.partyBAddress ∧
    (mkContract u newId now numWords f).agreement_start_date = f.startDate ∧
    (mkContract u newId now numWords f).agreement_end_date = f.endDate ∧
    (mkContract u newId now numWords f).total_fee_usd = f.total_fee_usd ∧
    (mkContract u newId now numWords f).tax_percentage = f.tax_percentage ∧
    (mkContract u newId now numWords f).workshop_description = f.workshopDescription ∧
    (mkContract u newId now numWords f).output_description = f.outputDescription ∧
    (mkContract u newId now numWords f).focal_person_info = f.focalPersons ∧
    (mkContract u newId now numWords f).payment_installments = f.paymentInstallments ∧
    (mkContract u newId now numWords f).custom_article_sentences = f.customArticleSentences ∧
    (mkContract u newId now numWords f).party_a_signature_name = f.partyASigner ∧
    (mkContract u newId now numWords f).deleted_at = none := by
  refine ⟨?_, rfl, rfl, rfl, rfl, rfl, rfl, rfl, rfl, rfl, rfl, rfl, rfl, rfl, rfl, rfl,
    rfl, rfl, rfl, rfl, rfl, rfl, rfl⟩
  unfold createPost
  rw [validateCreate_none db f h1 h2 h3]

/-- Witness for C1: the sample form on an empty table commits the new row
and flashes the success message. -/
theorem C1_create_commits_witness :
    createPost [] otherUser "uuid-1" 3 (fun _ => "") sampleForm =
      .redirect "Contract created successfully!"
        [mkContract otherUser "uuid-1" 3 (fun _ => "") sampleForm] := by
  have htol : |(extractedPercents sampleForm.paymentInstallments).sum - 100| ≤ 1 / 100 := by
    have hs : extractedPercents sampleForm.paymentInstallments = [40, 60] := rfl
    rw [hs]
    norm_num
  have h := (C1_create_commits [] otherUser "uuid-1" 3 (fun _ => "") sampleForm
    (by decide) (by decide)
    ⟨⟨(2025, 1, 1), (2025, 6, 30), rfl, rfl, by decide⟩, by decide, by decide, by decide,
      htol, by decide, by decide⟩).1
  simpa using h

/-- All create-route checks before the duplicate-number check pass, and a
non-deleted contract bears the submitted number: the POST flashes the
duplicate message and stores nothing. -/
theorem validateCreate_some_dup (db : List ContractRow) (f : CreateForm)
    (h1 : CreateChecksPreDup f)
    (hdup : ∃ c ∈ db, c.contract_number = f.contractNumber ∧ c.deleted_at = none) :
    validateCreate db f = some "Contract number already exists." := by
  obtain ⟨ha, ⟨hs1, hs2⟩, ⟨hb1, hb2⟩, hvat, hinst, hfocal, hreq, hconf, hfmt⟩ := h1
  rw [validateCreate]
  rw [vPartyA_none f ha, vSigner_none f hs1 hs2, vPartyBName_none f hb1 hb2,
    vVat_none f hvat, vInstNonempty_none f hinst, vFocalNonempty_none f hfocal,
    vRequired_none f hreq hb1, vConfirm_none f hconf, vFormat_none f hfmt,
    vDup_some db f hdup]
  rfl

/-- C6: with the checks before the duplicate-number check passing, a
submitted number borne by a live contract is rejected with
`'Contract number already exists.'` and nothing is stored, while a number
borne only by soft-deleted contracts does not block creation: with the
remaining validations passing the contract is committed. -/
theorem C6_duplicate_number (db : List ContractRow) (u : UserCtx) (newId : String)
    (now : Nat) (numWords : Nat → String) (f : CreateForm)
    (hpre : CreateChecksPreDup f) :
    ((∃ c ∈ db, c.contract_number = f.contractNumber ∧ c.deleted_at = none) →
      createPost db u newId now numWords f =
        .render "Contract number already exists." db) ∧
    (NoLiveDup db f → CreateChecksPostDup f →
      createPost db u newId now numWords f =
        .redirect "Contract created successfully!"
          (db ++ [mkContract u newId now numWords f])) := by
  constructor
  · intro hdup
    unfold createPost
    rw [validateCreate_some_dup db f hpre hdup]
  · intro hno hpost
    unfold createPost
    rw [validateCreate_none db f hpre hno hpost]

/-- Witness for C6: the sample form resubmitted while `baseContract` (same
number, not deleted) is stored is rejected with the duplicate flash. -/
theorem C6_duplicate_number_witness :
    createPost [baseContract] otherUser "uuid-3" 3 (fun _ => "") sampleForm =
      .render "Contract number already exists." [baseContract] := by
  exact (C6_duplicate_number [baseContract] otherUser "uuid-3" 3 (fun _ => "") sampleForm
    (by decide)).1 ⟨baseContract, by simp, by decide, rfl⟩

/-- C3: a POST to the create route is rejected — re-rendered with an error
flash and nothing stored — whenever some payment-installment description
lacks a `(N%)` percentage or the extracted percentages miss 100 by more than
0.01; and when every other validation up to the percentage total passes, the
flash is exactly `'Total percentage of payment installments must equal
100%.'`. -/
theorem C3_installment_rejection (db : List ContractRow) (u : UserCtx) (newId : String)
    (now : Nat) (numWords : Nat → String) (f : CreateForm) :
    (((∃ i ∈ f.paymentInstallments, searchPercent i.description = none) ∨
        1 / 100 < |(extractedPercents f.paymentInstallments).sum - 100|) →
      ∃ message, createPost db u newId now numWords f = .render message db) ∧
    (CreateChecksPreDup f → NoLiveDup db f →
      (∃ ds de, parseDate f.startDate = some ds ∧ parseDate f.endDate = some de ∧
        dateLt de ds = false) →
      0 ≤ f.total_fee_usd →
      (f.tax_percentage = 0 ∨ f.tax_percentage = 5 ∨ f.tax_percentage = 10 ∨
        f.tax_percentage = 15 ∨ f.tax_percentage = 20) →
      (∀ i ∈ f.paymentInstallments,
        (searchPercent i.description).isSome = true ∧ (parseDate i.dueDate).isSome = true) →
      1 / 100 < |(extractedPercents f.paymentInstallments).sum - 100| →
      createPost db u newId now numWords f =
        .render "Total percentage of payment installments must equal 100%." db) := by
  constructor
  · intro hbad
    cases hv : validateCreate db f with
    | some m =>
      exact ⟨m, by unfold createPost; rw [hv]⟩
    | none =>
      exfalso
      have hchain := hv
      unfold validateCreate at hchain
      simp only [vchain_eq_none] at hchain
      obtain ⟨_, _, _, _, _, _, _, _, _, _, _, _, _, hinst_none, _, _⟩ := hchain
      unfold vInstallments at hinst_none
      cases hloop : checkInstallmentsLoop f.paymentInstallments 0 with
      | error m =>
        rw [hloop] at hinst_none
        simp at hinst_none
      | ok total =>
        rw [hloop] at hinst_none
        dsimp only at hinst_none
        obtain ⟨hall, htot⟩ := checkInstallmentsLoop_ok_inv _ _ _ hloop
        rcases hbad with ⟨i, hi, hnone⟩ | htol
        · have hs := hall i hi
          rw [hnone] at hs
          simp at hs
        · rw [htot, zero_add, if_pos htol] at hinst_none
          exact Option.noConfusion hinst_none
  · intro hpre hno hdates hfee htax hloop htol
    obtain ⟨ha, ⟨hs1, hs2⟩, ⟨hb1, hb2⟩, hvat, hinst, hfocal, hreq, hconf, hfmt⟩ := hpre
    unfold createPost
    rw [validateCreate]
    rw [vPartyA_none f ha, vSigner_none f hs1 hs2, vPartyBName_none f hb1 hb2,
      vVat_none f hvat, vInstNonempty_none f hinst, vFocalNonempty_none f hfocal,
      vRequired_none f hreq hb1, vConfirm_none f hconf, vFormat_none f hfmt,
      vDup_none db f hno, vDates_none f hdates, vFee_none f hfee, vTax_none f htax,
      vInstallments_some_total f hloop htol]
    rfl

/-- Witness for C3: the 90%-total form is re-rendered with the
total-percentage flash and nothing stored. -/
theorem C3_installment_rejection_witness :
    createPost [] otherUser "uuid-2" 3 (fun _ => "") badTotalForm =
      .render "Total percentage of payment installments must equal 100%." [] := by
  have hs : extractedPercents badTotalForm.paymentInstallments = [40, 50] := rfl
  have htol : 1 / 100 < |(extractedPercents badTotalForm.paymentInstallments).sum - 100| := by
    rw [hs]
    rw [show ([(40 : ℚ), 50].sum - 100) = -10 by norm_num]
    rw [abs_neg, abs_of_nonneg (by norm_num : (0 : ℚ) ≤ 10)]
    norm_num
  exact (C3_installment_rejection [] otherUser "uuid-2" 3 (fun _ => "") badTotalForm).2
    (by decide) (by decide)
    ⟨(2025, 1, 1), (2025, 6, 30), rfl, rfl, by decide⟩ (by decide) (by decide)
    (by decide) htol

/-- C2, amended: the DOCX body is header, article section, signature block;
the sixteen standard articles carry the numbers 1–16 in that order; the
article section renders them in list order; each article renders as its
heading — one paragraph of all-bold runs whose concatenated text is
`ARTICLE <number>: <title>` — followed by the article's body (content
paragraphs, with the payment-schedule table built from the contract's
payment installments directly after Article 4's content and no table for any
other article), followed immediately by every custom sentence stored under
that article's number in `custom_article_sentences`, each rendered through
`add_paragraph` (line 1275) and therefore split on `'\n\n'` into one or more
additional paragraphs — exactly one only when the sentence contains no
`'\n\n'`. -/
theorem C2_docx_articles (c : ContractRow) (numWords : Nat → String) :
    docxBlocks c numWords =
      headerBlocks c ++ articleSection c numWords ++ signatureBlocks c ∧
    (standardArticles c numWords).map StdArticle.number =
      [1, 2, 3, 4, 5, 6, 7, 8, 9, 10, 11, 12, 13, 14, 15, 16] ∧
    articleSection c numWords = (standardArticles c numWords).flatMap (renderArticle c) ∧
    (∀ a : StdArticle,
      renderArticle c a =
        addHeading a.number a.title ::
          (articleBodyBlocks c a ++
            ((customArticles c).flatMap fun custom =>
              if custom.1 = toString a.number then addPara custom.2 false
              else []))) ∧
    (∀ (s : String) (b : Bool),
      addPara s b = (splitParas s).map (fun t => DocBlock.para [⟨t, b⟩])) ∧
    (∀ (n : Nat) (t : String), ∃ runs,
      addHeading n t = DocBlock.para runs ∧ (∀ r ∈ runs, r.bold = true) ∧
      runsText runs = "ARTICLE " ++ toString n ++ ": " ++ t) ∧
    (∀ a ∈ standardArticles c numWords,
      a.table = if a.number = 4 then some (scheduleTable c) else none) ∧
    scheduleTable c =
      scheduleHeaderRow ::
        c.payment_installments.map (scheduleRowOf c.total_fee_usd c.tax_percentage) ∧
    customArticles c = c.custom_article_sentences := by
  refine ⟨rfl, rfl, rfl, ?_, fun s b => rfl, ?_, ?_, rfl, rfl⟩
  · intro a
    unfold renderArticle articleBodyBlocks
    rw [List.append_assoc]
  · intro n t
    refine ⟨[⟨"ARTICLE " ++ toString n, true⟩, ⟨": ", true⟩, ⟨t, true⟩], rfl, ?_, ?_⟩
    · intro r hr
      rcases List.mem_cons.1 hr with rfl | hr'
      · rfl
      · rcases List.mem_cons.1 hr' with rfl | hr''
        · rfl
        · rcases List.mem_cons.1 hr'' with rfl | hr'''
          · rfl
          · simp at hr'''
    · simp [runsText, String.join]
  · intro a ha
    fin_cases ha <;> rfl

/-- Witness for C2 at the concrete `baseContract`: the sixteen standard
articles carry the numbers 1 through 16 in order. -/
theorem C2_docx_articles_witness :
    (standardArticles baseContract (fun _ => "")).map StdArticle.number =
      [1, 2, 3, 4, 5, 6, 7, 8, 9, 10, 11, 12, 13, 14, 15, 16] := by
  exact (C2_docx_articles baseContract (fun _ => "")).2.1

/-- C2 counterexample: a contract storing the single custom sentence
`"First extra.\n\nSecond extra."` under article 1 renders that article with
TWO extra paragraphs — `add_paragraph` (line 1275) splits the sentence on
the double newline — not with the one additional paragraph per sentence
that the claim asserts (the `filterMap` form below). -/
theorem C2_docx_articles_counterexample :
    customArticles splitContract = [("1", "First extra.\n\nSecond extra.")] ∧
    renderArticle splitContract ⟨1, "TERMS OF REFERENCE", "Content.", none, [], ""⟩ =
      [addHeading 1 "TERMS OF REFERENCE",
       DocBlock.para [⟨"Content.", false⟩],
       DocBlock.para [⟨"First extra.", false⟩],
       DocBlock.para [⟨"Second extra.", false⟩]] ∧
    renderArticle splitContract ⟨1, "TERMS OF REFERENCE", "Content.", none, [], ""⟩ ≠
      addHeading 1 "TERMS OF REFERENCE" ::
        (articleBodyBlocks splitContract ⟨1, "TERMS OF REFERENCE", "Content.", none, [], ""⟩ ++
          ((customArticles splitContract).filterMap fun custom =>
            if custom.1 = toString (1 : Nat) then
              some (DocBlock.para [⟨custom.2, false⟩])
            else none)) := by
  refine ⟨rfl, ?_, ?_⟩
  · rfl
  · decide
